import Mathlib

/-!
# Verification of the zeppelin-analytics scoring core

A shallow embedding of the repository's event normalization, lake building,
concentration and stress scorers, narrative generator, report assembler and
HTTP boundary, together with theorems settling the frozen claims about them.

Conventions of the embedding:
* pandas DataFrames of lake rows become `List Row`; the per-event-type payload
  columns become the tagged union `EventData` (exactly one event type's field
  set is populated per row, per the data model invariant).
* floats become exact rationals for data and branching, and real numbers for
  scores (the scroll consistency metric uses `Real.exp` and the sample
  standard deviation uses `Real.sqrt`).
* timestamps (`addedAt` and payload time fields) are instants in milliseconds
  since the epoch, already through the shared date parser; `total_seconds()`
  of a difference is division by 1000, minutes by 60000.
* Python exceptions become `Except PyError`; a Python function that can raise
  returns `Except PyError α`, and callers sequence with `do`.
-/

namespace Zeppelin

/-- Python exception kinds relevant to the embedded code paths. -/
inductive PyError where
  | keyError
  | typeError
  | valueError
  | attributeError
deriving DecidableEq, Repr

/-- A pandas cell value used as `sessionId`: integer, string, or null (NaN).
The `sessionId` column is declared `int | None` at the ingestion boundary,
and the report assembler converts ids to strings before the narrative call. -/
inductive Value where
  | vInt (n : ℤ)
  | vStr (s : String)
  | vNull
deriving DecidableEq, Repr

/-- Python truthiness of a `sessionId` cell (`if first_session_id:`). -/
def Value.truthy : Value → Bool
  | .vInt n => n ≠ 0
  | .vStr s => s ≠ ""
  | .vNull => false

/-- Python `str()` of a session id cell. -/
def Value.pyStr : Value → String
  | .vInt n => toString n
  | .vStr s => s
  | .vNull => "None"

/-- Ordering used by pandas `groupby(sort=True)` on homogeneous key columns
(ints before strings is an arbitrary tie-break for mixed columns, which
pandas would reject; every lake in the claims is homogeneous). -/
def Value.le : Value → Value → Bool
  | .vNull, _ => true
  | _, .vNull => false
  | .vInt a, .vInt b => a ≤ b
  | .vInt _, .vStr _ => true
  | .vStr _, .vInt _ => false
  | .vStr a, .vStr b => a ≤ b

/-! ## Generic list helpers (means, extrema, sorting, grouping) -/

/-- Mean of a list of rationals, `sum/len` (`0` on `[]`, a case the sources
guard before taking means). -/
def qMean (l : List ℚ) : ℚ := l.sum / l.length

/-- Sample variance with `ddof = 1`, as used by `pandas.Series.std()` and
`numpy.std(ddof=1)` before the square root. -/
def sampleVar (l : List ℚ) : ℚ :=
  ((l.map fun x => (x - qMean l) ^ 2).sum) / ((l.length : ℚ) - 1)

/-- Sample standard deviation (`ddof = 1`). -/
noncomputable def sampleStd (l : List ℚ) : ℝ := Real.sqrt ((sampleVar l : ℚ) : ℝ)

/-- The `max lo (min hi x)`: the `_clamp` helper of `stress.py`. -/
def qClamp (x : ℚ) (lo : ℚ := 0) (hi : ℚ := 1) : ℚ := max lo (min hi x)

/-- The `_clamp` on real-valued scores. -/
noncomputable def rClamp (x : ℝ) (lo : ℝ := 0) (hi : ℝ := 1) : ℝ := max lo (min hi x)

/-- The `np.clip(x, 0, 1)`. -/
def npClip01 (x : ℚ) : ℚ := min (max x 0) 1

/-- Minimum of a list with the head as seed (the sources only take extrema of
nonempty columns). -/
def qMinD (l : List ℚ) : ℚ :=
  match l with
  | [] => 0
  | x :: xs => xs.foldl min x

/-- Maximum of a list with the head as seed. -/
def qMaxD (l : List ℚ) : ℚ :=
  match l with
  | [] => 0
  | x :: xs => xs.foldl max x

/-- Insert into a `le`-sorted list (stable). -/
def insertLe {α : Type} (le : α → α → Bool) (x : α) : List α → List α
  | [] => [x]
  | y :: ys => if le x y then x :: y :: ys else y :: insertLe le x ys

/-- Stable insertion sort, modelling `sort_values`. -/
def isortBy {α : Type} (le : α → α → Bool) : List α → List α
  | [] => []
  | x :: xs => insertLe le x (isortBy le xs)

/-- First-occurrence deduplication of a key list (`unique` of groupby keys). -/
def dedupKeys {α : Type} [DecidableEq α] : List α → List α
  | [] => []
  | x :: xs => if x ∈ dedupKeys xs then dedupKeys xs else x :: dedupKeys xs

/-! ## Data model: normalized events and lake rows

`parse_body` (utils.py) decodes a raw payload into exactly one event type's
typed columns; the lake row carries those columns next to the join columns.
The tagged union below is the typed shape of that decoded field set; a row's
`type` string column is recovered from it (for the unknown-type marker the
original tag string is kept in the `other_type` column, and a null type
leaves every typed column absent). -/
inductive EventData where
  | heartrate (value count mean : ℚ)
  | physicalActivity (detected_at speed : ℚ)
  | weakRssi (value : ℚ)
  | wearableOff (at_ : ℚ)
  | textScroll (direction : String) (distance position time : ℚ)
  | tabFocusGain (time : ℚ)
  | tabFocusLost (time : ℚ)
  | unpinScreen (at_ : ℚ)
  | videoPaused (at_ duration : ℚ)
  | videoJump (at_ to_ : ℚ) (direction : String)
  | videoSpeedChanged (at_ speed : ℚ)
  | videoPercentage (at_ percentage : ℚ)
  | otherType (tag : String)
  | nullType
deriving DecidableEq, Repr

/-- The `type` column of a lake row (null for a null-typed raw event). -/
def EventData.typeCol : EventData → Option String
  | .heartrate .. => some "USER_HEARTRATE"
  | .physicalActivity .. => some "USER_PHYSICAL_ACTIVITY"
  | .weakRssi .. => some "WEAK_RSSI"
  | .wearableOff .. => some "WEARABLE_OFF"
  | .textScroll .. => some "TEXT_SCROLL"
  | .tabFocusGain .. => some "TAB_FOCUS_GAIN"
  | .tabFocusLost .. => some "TAB_FOCUS_LOST"
  | .unpinScreen .. => some "UNPIN_SCREEN"
  | .videoPaused .. => some "VIDEO_PAUSED"
  | .videoJump .. => some "VIDEO_JUMP"
  | .videoSpeedChanged .. => some "VIDEO_SPEED_CHANGED"
  | .videoPercentage .. => some "VIDEO_PERCENTAGE"
  | .otherType tag => some tag
  | .nullType => none

/-- One row of the processed lake: event columns (`userId`, `sessionId`,
`courseId`, `addedAt`), the user reference columns from the right-join
(absent when the user lookup failed), and the typed payload columns. -/
structure Row where
  userId : String
  user_id : Option String
  name : Option String
  sessionId : Value
  courseId : ℤ
  addedAt : ℚ
  data : EventData
deriving DecidableEq, Repr

/-- Does the row's `type` column equal `t`? (pandas `df["type"] == t`;
a null cell compares unequal to every string). -/
def Row.hasType (r : Row) (t : String) : Bool := r.data.typeCol == some t

/-- The distinct `sessionId` keys in groupby order: pandas `groupby` sorts
the keys and drops null keys. -/
def sessionKeys (df : List Row) : List Value :=
  isortBy Value.le (dedupKeys ((df.map Row.sessionId).filter (· ≠ Value.vNull)))

/-- pandas `df.groupby("sessionId")`: sorted non-null keys, each paired with
the sub-frame of its rows in original order. -/
def groupbySessionId (df : List Row) : List (Value × List Row) :=
  (sessionKeys df).map fun k => (k, df.filter (fun r => r.sessionId == k))

/-! ## Concentration scorer (metriccalc/concentration.py) -/

/-- Master weights for each component of the concentration score, in the
source's dict insertion order. -/
def METRIC_WEIGHTS : List (String × ℚ) :=
  [("TEXT_SCROLL", 15/100), ("VIDEO_JUMP", 15/100), ("VIDEO_PAUSE", 1/10),
   ("VIDEO_SPEED", 1/10), ("TAB_FOCUS", 15/100), ("PHYSICAL_ACTIVITY", 1/10),
   ("WEAK_SIGNAL", 15/100), ("WATCH_OFF", 1/10)]

def HRTC_DOWN_PX : ℚ := 500
def HRTC_UP_PX : ℚ := 100
def VIDEO_PAUSE_THRESHOLD_S : ℚ := 60
def VIDEO_PAUSE_MAX_S : ℚ := 300
def PHYSICAL_ACTIVITY_THRESHOLD_MS : ℚ := 1

/-- The `TEXT_SCROLL` rows with a non-null distance, as (direction, distance)
pairs (`session_df[session_df["type"] == "TEXT_SCROLL"].dropna(...)`; in the
typed model a scroll row always carries its fields). -/
def scrollEvents (session_df : List Row) : List (String × ℚ) :=
  session_df.filterMap fun r =>
    match r.data with
    | .textScroll dir dist _ _ => some (dir, dist)
    | _ => none

/-- The inner `get_quality` closure: direction factor (upward scroll
penalized 20%) times the distance capped at the direction's reference
magnitude. -/
def get_quality (direction : String) (distance : ℚ) : ℚ :=
  let direction_factor : ℚ := if direction == "up" then 8/10 else 1
  let hrtc := if direction == "up" then HRTC_UP_PX else HRTC_DOWN_PX
  direction_factor * min 1 (distance / hrtc)

/-- The `_calculate_text_scroll_score`: consistency (exp of minus the coefficient
of variation of distances) weighted 0.15 blended with mean scroll quality
weighted 0.85; 1.0 when the session has no scroll events. -/
noncomputable def calculate_text_scroll_score (session_df : List Row) : ℝ :=
  let scroll_events := scrollEvents session_df
  if scroll_events = [] then 1
  else
    let distances := scroll_events.map Prod.snd
    let consistency_score : ℝ :=
      if distances.length < 2 then 1
      else
        let mean_dist := qMean distances
        let std_dist := sampleStd distances
        let cv : ℝ := if mean_dist = 0 then 1 else std_dist / (mean_dist : ℝ)
        Real.exp (-cv)
    let scroll_quality_score := qMean (scroll_events.map fun p => get_quality p.1 p.2)
    (15/100 : ℝ) * consistency_score + (85/100 : ℝ) * (scroll_quality_score : ℝ)

/-- The `VIDEO_JUMP` rows of a frame. -/
def jumpEvents (df : List Row) : List Row := df.filter (·.hasType "VIDEO_JUMP")

/-- The `_calculate_video_jump_score`: deviation of this session's jump count
from the user's historical per-session average (5 by default with no
history); with a zero average any jump scores 0 and none scores 1. -/
def calculate_video_jump_score (session_df user_history_df : List Row) : ℚ :=
  let user_jumps_per_session :=
    (groupbySessionId (jumpEvents user_history_df)).map fun g => ((g.2.length : ℚ))
  let ajs : ℚ := if user_jumps_per_session = [] then 5 else qMean user_jumps_per_session
  let sjs : ℕ := (jumpEvents session_df).length
  if ajs = 0 then (if sjs > 0 then 0 else 1)
  else max 0 (1 - (|(sjs : ℚ) - ajs| / ajs))

/-- Durations of `VIDEO_PAUSED` rows exceeding the 60s threshold. -/
def longPauseDurations (session_df : List Row) : List ℚ :=
  session_df.filterMap fun r =>
    match r.data with
    | .videoPaused _ d => if d > VIDEO_PAUSE_THRESHOLD_S then some d else none
    | _ => none

/-- The `_calculate_video_pause_score`: the product of the per-pause penalties
`1 - min(d, 300)/300` over pauses longer than 60s; 1.0 with none. -/
def calculate_video_pause_score (session_df : List Row) : ℚ :=
  let long_pauses := longPauseDurations session_df
  if long_pauses = [] then 1
  else (long_pauses.map fun d => 1 - (min d VIDEO_PAUSE_MAX_S / VIDEO_PAUSE_MAX_S)).prod

/-- The inner `score_speed` closure of `_calculate_video_speed_score`. -/
def score_speed (s : ℚ) : ℚ :=
  if s ≤ 5/4 then 1
  else if s ≤ 2 then 1 - 1/2 * (s - 5/4)
  else 0

/-- Speeds of `VIDEO_SPEED_CHANGED` rows. -/
def speedEvents (session_df : List Row) : List ℚ :=
  session_df.filterMap fun r =>
    match r.data with
    | .videoSpeedChanged _ s => some s
    | _ => none

/-- The `_calculate_video_speed_score`: mean of `score_speed` over speed-change
events; 1.0 with none. -/
def calculate_video_speed_score (session_df : List Row) : ℚ :=
  let speed_events := speedEvents session_df
  if speed_events = [] then 1
  else qMean (speed_events.map score_speed)

/-- Session end: `session_df["addedAt"].max()` (ms instant). -/
def sessionEndMs (session_df : List Row) : ℚ := qMaxD (session_df.map Row.addedAt)

/-- Session start: `session_df["addedAt"].min()` (ms instant). -/
def sessionStartMs (session_df : List Row) : ℚ := qMinD (session_df.map Row.addedAt)

/-- The `TAB_FOCUS_LOST` payload times, sorted (`sort_values("focus_lost.time")`). -/
def focusLostTimes (session_df : List Row) : List ℚ :=
  isortBy (· ≤ ·) (session_df.filterMap fun r =>
    match r.data with
    | .tabFocusLost t => some t
    | _ => none)

/-- The `TAB_FOCUS_GAIN` payload times, sorted (`sort_values("focus_gain.time")`). -/
def focusGainTimes (session_df : List Row) : List ℚ :=
  isortBy (· ≤ ·) (session_df.filterMap fun r =>
    match r.data with
    | .tabFocusGain t => some t
    | _ => none)

/-- Seconds of distraction charged to one focus-lost event: up to the first
subsequent gain, or to session end when no gain follows. -/
def distractionSeconds (gains : List ℚ) (session_end lost : ℚ) : ℚ :=
  match gains.find? (fun g => g > lost) with
  | some gain_time => (gain_time - lost) / 1000
  | none => (session_end - lost) / 1000

/-- The `_calculate_tab_focus_score`: fraction of session wall-clock time not
inside a lost-focus interval; 1.0 for zero-duration sessions. -/
def calculate_tab_focus_score (session_df : List Row) : ℚ :=
  let session_start := sessionStartMs session_df
  let session_end := sessionEndMs session_df
  let total_duration := (session_end - session_start) / 1000
  if total_duration = 0 then 1
  else
    let gains := focusGainTimes session_df
    let total_distraction_seconds :=
      ((focusLostTimes session_df).map (distractionSeconds gains session_end)).sum
    let focused_duration := max 0 (total_duration - total_distraction_seconds)
    focused_duration / total_duration

/-- Speeds of `USER_PHYSICAL_ACTIVITY` rows (with a non-null speed). -/
def activitySpeeds (df : List Row) : List ℚ :=
  df.filterMap fun r =>
    match r.data with
    | .physicalActivity _ s => some s
    | _ => none

/-- The `_calculate_physical_activity_score`: fraction of activity samples at or
below the 1.0 m/s sedentary threshold; 1.0 with none. -/
def calculate_physical_activity_score (session_df : List Row) : ℚ :=
  let activity_events := activitySpeeds session_df
  if activity_events = [] then 1
  else ((activity_events.filter (· ≤ PHYSICAL_ACTIVITY_THRESHOLD_MS)).length : ℚ)
    / (activity_events.length : ℚ)

/-- RSSI values of `WEAK_RSSI` rows. -/
def rssiValues (session_df : List Row) : List ℚ :=
  session_df.filterMap fun r =>
    match r.data with
    | .weakRssi v => some v
    | _ => none

/-- The inner `score_rssi` closure: linear map of RSSI from -90dBm (0) to
-70dBm (1), clipped to [0, 1]. -/
def score_rssi (rssi : ℚ) : ℚ := npClip01 ((rssi + 90) / 20)

/-- The `_calculate_weak_signal_score`: mean of per-sample clipped RSSI scores;
1.0 with none. -/
def calculate_weak_signal_score (session_df : List Row) : ℚ :=
  let signal_events := rssiValues session_df
  if signal_events = [] then 1
  else qMean (signal_events.map score_rssi)

/-- The `_calculate_watch_off_score`: `max(0, 1 - 0.5 * removal_count)`. -/
def calculate_watch_off_score (session_df : List Row) : ℚ :=
  let n_off := (session_df.filter (·.hasType "WEARABLE_OFF")).length
  max 0 (1 - 1/2 * (n_off : ℚ))

/-- One session's sub-score row of the concentration report. -/
structure ConcSubScores where
  session_id : Value
  text_scroll : ℝ
  video_jump : ℝ
  video_pause : ℝ
  video_speed : ℝ
  tab_focus : ℝ
  physical_activity : ℝ
  weak_signal : ℝ
  watch_off : ℝ

/-- Dict access `sub_scores[metric]` for the weighted-sum loop. -/
def ConcSubScores.metricValue (s : ConcSubScores) : String → ℝ
  | "TEXT_SCROLL" => s.text_scroll
  | "VIDEO_JUMP" => s.video_jump
  | "VIDEO_PAUSE" => s.video_pause
  | "VIDEO_SPEED" => s.video_speed
  | "TAB_FOCUS" => s.tab_focus
  | "PHYSICAL_ACTIVITY" => s.physical_activity
  | "WEAK_SIGNAL" => s.weak_signal
  | "WATCH_OFF" => s.watch_off
  | _ => 0

/-- All eight sub-scores of one session. -/
noncomputable def concSubScoresOf (session_id : Value) (session_df user_history_df : List Row) :
    ConcSubScores where
  session_id := session_id
  text_scroll := calculate_text_scroll_score session_df
  video_jump := ((calculate_video_jump_score session_df user_history_df : ℚ) : ℝ)
  video_pause := ((calculate_video_pause_score session_df : ℚ) : ℝ)
  video_speed := ((calculate_video_speed_score session_df : ℚ) : ℝ)
  tab_focus := ((calculate_tab_focus_score session_df : ℚ) : ℝ)
  physical_activity := ((calculate_physical_activity_score session_df : ℚ) : ℝ)
  weak_signal := ((calculate_weak_signal_score session_df : ℚ) : ℝ)
  watch_off := ((calculate_watch_off_score session_df : ℚ) : ℝ)

/-- The `sum(sub_scores[metric] * weight for metric, weight in
METRIC_WEIGHTS.items())`. -/
noncomputable def finalSessionScore (subs : ConcSubScores) : ℝ :=
  (METRIC_WEIGHTS.map fun mw => subs.metricValue mw.1 * ((mw.2 : ℚ) : ℝ)).sum

/-- Result dict of the concentration report. -/
structure ConcResult where
  concentration_score : ℝ
  sub_scores : List ConcSubScores

/-- The `get_concentration_score_no_filter`: average of per-session weighted
scores over the period frame (None when no rows or no scored sessions). -/
noncomputable def get_concentration_score_no_filter
    (user_period_df user_history_df : List Row) : Option ConcResult :=
  if user_period_df = [] then none
  else
    let groups := groupbySessionId user_period_df
    let sub_scores_list := groups.map fun g => concSubScoresOf g.1 g.2 user_history_df
    let session_scores := sub_scores_list.map finalSessionScore
    if session_scores = [] then none
    else some
      { concentration_score := session_scores.sum / (session_scores.length : ℝ)
        sub_scores := sub_scores_list }

/-- One day in milliseconds: the `pd.Timedelta(days=1)` widening of the end
bound. -/
def dayMs : ℚ := 86400000

/-- The user-and-period filter of `get_concentration_score`: the `userId`
column must match, and `addedAt` lies in `[start, end + 1 day)`, with the
bounds already through the shared date parser. -/
def concentrationSlice (full_df : List Row) (user_id : String)
    (start_ts end_ts : ℚ) : List Row :=
  full_df.filter fun r =>
    r.userId == user_id && decide (start_ts ≤ r.addedAt) &&
      decide (r.addedAt < end_ts + dayMs)

/-- The `get_concentration_score`: filter by user and date range, then score the
slice against the user's entire history. -/
noncomputable def get_concentration_score (full_df : List Row) (user_id : String)
    (start_ts end_ts : ℚ) : Option ConcResult :=
  let user_period_df := concentrationSlice full_df user_id start_ts end_ts
  if user_period_df = [] then none
  else
    let user_history_df := full_df.filter fun r => r.userId == user_id
    get_concentration_score_no_filter user_period_df user_history_df

/-! ## Stress scorer (metriccalc/stress.py) -/

/-- Stress metric weights, in the source's dict insertion order. -/
def stressWeights : List (String × ℚ) :=
  [("heartrate", 40/100), ("activity", 15/100), ("scrolling", 15/100),
   ("jumping", 10/100), ("focus_loss", 20/100)]

/-- Device-reported mean heart rates of `USER_HEARTRATE` rows. -/
def heartrateMeans (df : List Row) : List ℚ :=
  df.filterMap fun r =>
    match r.data with
    | .heartrate _ _ m => some m
    | _ => none

/-- The `_metric_stress_heartrate`: the average heart rate scaled linearly from a
75bpm baseline to a 110bpm high, clamped; 0 with no heart-rate rows. -/
def metric_stress_heartrate (df : List Row) : ℚ :=
  if df = [] then 0
  else
    let avg_hr := qMean (heartrateMeans df)
    let baseline_hr : ℚ := 75
    let high_hr : ℚ := 110
    qClamp ((avg_hr - baseline_hr) / (high_hr - baseline_hr))

/-- The `_metric_stress_activity`: fraction of activity rows faster than the
sedentary threshold; 0 with none. -/
def metric_stress_activity (df : List Row) (thresh : ℚ := 1) : ℚ :=
  if df = [] then 0
  else ((activitySpeeds df).filter (fun s => s > thresh)).length / (df.length : ℚ)

/-- Scroll distances of `TEXT_SCROLL` rows. -/
def scrollDistances (df : List Row) : List ℚ :=
  df.filterMap fun r =>
    match r.data with
    | .textScroll _ dist _ _ => some dist
    | _ => none

/-- The `_metric_stress_scrolling`: coefficient of variation of scroll distances
scaled so CV = 1.5 maps to 1.0, clamped; 0 with fewer than two rows or zero
mean. -/
noncomputable def metric_stress_scrolling (df : List Row) : ℝ :=
  if df.length < 2 then 0
  else
    let dists := scrollDistances df
    let std := sampleStd dists
    let mean := qMean dists
    if mean = 0 then 0
    else rClamp ((std / (mean : ℝ)) / (3/2 : ℝ))

/-- The `_metric_stress_video_jump`: jump events per minute scaled so 1.5/min is
maximal; 0 for an empty frame or zero duration. -/
def metric_stress_video_jump (df : List Row) (duration_minutes : ℚ) : ℚ :=
  if df = [] ∨ duration_minutes = 0 then 0
  else qClamp (((df.length : ℚ) / duration_minutes) / (3/2))

/-- The `_metric_stress_tab_focus`: focus-lost events per minute scaled so
1/min is maximal; 0 for zero duration. -/
def metric_stress_tab_focus (df : List Row) (duration_minutes : ℚ) : ℚ :=
  if duration_minutes = 0 then 0
  else
    let losses := (df.filter (·.hasType "TAB_FOCUS_LOST")).length
    qClamp (((losses : ℚ) / duration_minutes) / 1)

/-- One session's entry of the stress report's breakdown. -/
structure SessionStress where
  session_id : Value
  stress_level : ℝ
  heartrate : ℝ
  activity : ℝ
  scrolling : ℝ
  jumping : ℝ
  focus_loss : ℝ

/-- Dict access `metrics[k]` for the weighted-sum loop. -/
def SessionStress.metricValue (s : SessionStress) : String → ℝ
  | "heartrate" => s.heartrate
  | "activity" => s.activity
  | "scrolling" => s.scrolling
  | "jumping" => s.jumping
  | "focus_loss" => s.focus_loss
  | _ => 0

/-- The five stress metrics of one session group `g`. -/
noncomputable def sessionStressOf (session_id : Value) (g : List Row) : SessionStress :=
  let duration_minutes := (sessionEndMs g - sessionStartMs g) / 1000 / 60
  let f_hr := g.filter (·.hasType "USER_HEARTRATE")
  let f_activity := g.filter (·.hasType "USER_PHYSICAL_ACTIVITY")
  let f_scroll := g.filter (·.hasType "TEXT_SCROLL")
  let f_jump := g.filter (·.hasType "VIDEO_JUMP")
  let metrics : SessionStress :=
    { session_id := session_id
      stress_level := 0
      heartrate := ((metric_stress_heartrate f_hr : ℚ) : ℝ)
      activity := ((metric_stress_activity f_activity : ℚ) : ℝ)
      scrolling := metric_stress_scrolling f_scroll
      jumping := ((metric_stress_video_jump f_jump duration_minutes : ℚ) : ℝ)
      focus_loss := ((metric_stress_tab_focus g duration_minutes : ℚ) : ℝ) }
  { metrics with
    stress_level :=
      (stressWeights.map fun kw => metrics.metricValue kw.1 * ((kw.2 : ℚ) : ℝ)).sum }

/-- Result dict of the stress report. -/
structure StressResult where
  stress : ℝ
  sub_stress : List SessionStress

/-- The `stress_score_`: per-session weighted stress levels and their mean over
the period (`0.0` with no sessions). -/
noncomputable def stress_score_ (dfx : List Row) : StressResult :=
  let sub_stress_list := (groupbySessionId dfx).map fun g => sessionStressOf g.1 g.2
  let session_stress_levels := sub_stress_list.map SessionStress.stress_level
  { stress :=
      if session_stress_levels = [] then 0
      else session_stress_levels.sum / (session_stress_levels.length : ℝ)
    sub_stress := sub_stress_list }

/-- The user-and-period filter of `stress_report`: the `user_id` reference
column must match and `addedAt` lies in the inclusive window `[start, end]`
(both bounds through the shared date parser, no one-day widening). -/
def stressSlice (df : List Row) (user_id : String) (start end_ : ℚ) : List Row :=
  df.filter fun r =>
    r.user_id == some user_id && decide (start ≤ r.addedAt) &&
      decide (r.addedAt ≤ end_)

/-- The `stress_report`: filter by user and date range; a default
`{"stress": 0.0, "sub_stress": []}` when the slice is empty. -/
noncomputable def stress_report (df : List Row) (user_id : String)
    (date_from date_to : ℚ) : StressResult :=
  let dfx := stressSlice df user_id date_from date_to
  if dfx = [] then { stress := 0, sub_stress := [] }
  else stress_score_ dfx

/-! ## Narrative generator (metriccalc/sessionlog.py) -/

/-- One log entry dict of the narrative (the source stores `int(session_id)`;
the raw cell is kept here, and the two claims about the narrative only
inspect the `event_type` column and the number of entries). -/
structure LogEntry where
  session_id : Value
  user_name : String
  event_type : String
  event_description : String
  timestamp : ℚ
deriving DecidableEq, Repr

def STRESS_HR_THRESHOLD : ℚ := 100
def CALM_HR_THRESHOLD : ℚ := 80
def ACTIVITY_SPEED_THRESHOLD : ℚ := 1

/-- The `name` cell rendered into descriptions (a missing user reference is
a NaN cell, which Python renders as "nan" in an f-string). -/
def userNameOf (name : Option String) : String := name.getD "nan"

/-- The per-event body of the narrative loop: from the hysteresis flags
`(is_stressed, is_active)` and one event, the updated flags and the optional
`(event_type, event_description)` of the emitted entry. -/
def emitFor (user_name : String) (st : Bool × Bool) (d : EventData) :
    (Bool × Bool) × Option (String × String) :=
  match d with
  | .tabFocusLost _ =>
    (st, some ("FOCUS_LOST", user_name ++ " lost focus on the page."))
  | .tabFocusGain _ =>
    (st, some ("FOCUS_GAINED", user_name ++ " returned to the page."))
  | .videoPaused _ duration =>
    if duration > 10 then
      (st, some ("VIDEO_PAUSED",
        "Paused the video for " ++ toString ⌊duration⌋ ++ " seconds."))
    else (st, none)
  | .videoSpeedChanged _ speed =>
    (st, some ("VIDEO_SPEED_CHANGED",
      "Changed video speed to " ++ toString speed ++ "x."))
  | .unpinScreen _ =>
    (st, some ("SCREEN_UNPINNED", user_name ++ " unpinned the screen on their phone."))
  | .wearableOff _ =>
    (st, some ("WATCH_REMOVED", user_name ++ " took off the smart watch."))
  | .weakRssi _ =>
    (st, some ("WEAK_SIGNAL",
      "A weak signal was detected, which may cause interruptions."))
  | .heartrate _ _ hr =>
    if hr > STRESS_HR_THRESHOLD ∧ st.1 = false then
      ((true, st.2), some ("STRESS_INCREASED",
        "Detected an elevated heart rate, indicating a rise in stress."))
    else if hr < CALM_HR_THRESHOLD ∧ st.1 = true then
      ((false, st.2), some ("STRESS_DECREASED",
        "Heart rate has returned to a normal level."))
    else (st, none)
  | .physicalActivity _ speed =>
    if speed > ACTIVITY_SPEED_THRESHOLD ∧ st.2 = false then
      ((st.1, true), some ("BECAME_ACTIVE",
        user_name ++ " became physically active (e.g., got up or started walking)."))
    else if speed < ACTIVITY_SPEED_THRESHOLD ∧ st.2 = true then
      ((st.1, false), some ("BECAME_SEDENTARY",
        user_name ++ " is no longer physically active."))
    else (st, none)
  | _ => (st, none)

/-- The chronological loop over a session's rows, threading the two
hysteresis flags and collecting emitted entries. -/
def narrativeLoop (session_id : Value) (user_name : String) (st : Bool × Bool) :
    List Row → List LogEntry
  | [] => []
  | r :: rs =>
    let step := emitFor user_name st r.data
    match step.2 with
    | some (etype, desc) =>
      { session_id := session_id, user_name := user_name, event_type := etype,
        event_description := desc, timestamp := r.addedAt }
        :: narrativeLoop session_id user_name step.1 rs
    | none => narrativeLoop session_id user_name step.1 rs

/-- The `generate_session_log`: filter one user's session, sort chronologically,
bound the emitted entries with synthetic `SESSION_START`/`SESSION_END`
markers at the session's min/max timestamps; `[]` for an empty session. -/
def generate_session_log (df : List Row) (user_id : String) (session_id : Value) :
    List LogEntry :=
  let session_df := isortBy (fun a b => a.addedAt ≤ b.addedAt)
    (df.filter fun r => r.userId == user_id && r.sessionId == session_id)
  match session_df with
  | [] => []
  | r0 :: _ =>
    let user_name := userNameOf r0.name
    let start_entry : LogEntry :=
      { session_id := session_id, user_name := user_name,
        event_type := "SESSION_START",
        event_description := user_name ++ " started a study session.",
        timestamp := sessionStartMs session_df }
    let end_entry : LogEntry :=
      { session_id := session_id, user_name := user_name,
        event_type := "SESSION_END",
        event_description := user_name ++ " ended the study session.",
        timestamp := sessionEndMs session_df }
    start_entry :: (narrativeLoop session_id user_name (false, false) session_df
      ++ [end_entry])

/-! ## Session summary (metriccalc/session_summary.py, utils._filter_data) -/

/-- The `_filter_data` of utils.py: user on the `user_id` reference column and an
inclusive date range implemented as `[start, end + 1 day)`. -/
def filter_data (df : List Row) (user_id : String) (start end_ : ℚ) : List Row :=
  df.filter fun r =>
    r.user_id == some user_id && decide (start ≤ r.addedAt) &&
      decide (r.addedAt < end_ + dayMs)

/-- The `get_number_of_sessions`: distinct `sessionId` count of the filtered
slice (`nunique`, which ignores null keys). -/
def get_number_of_sessions (df : List Row) (user_id : String)
    (start end_ : ℚ) : ℕ :=
  (sessionKeys (filter_data df user_id start end_)).length

/-- The `get_average_session_time`: mean over sessions of the span between the
session's first and last event, in seconds; 0.0 for an empty slice. -/
def get_average_session_time (df : List Row) (user_id : String)
    (start end_ : ℚ) : ℚ :=
  let user_df := filter_data df user_id start end_
  if user_df = [] then 0
  else qMean ((groupbySessionId user_df).map fun g =>
    (sessionEndMs g.2 - sessionStartMs g.2) / 1000)

/-! ## Pydantic models and report parsing (models.py, report_parse.py) -/

/-- The `FocusDetails` (per-session focus metrics; every value passed through
`float(...)`, the session id kept as parsed). -/
structure FocusDetails where
  session_id : Value
  text_scroll : ℝ
  video_jump : ℝ
  video_pause : ℝ
  video_speed : ℝ
  tab_focus : ℝ
  physical_activity : ℝ
  weak_signal : ℝ
  watch_off : ℝ

structure FocusReport where
  focus_score : ℝ
  focus_details : List FocusDetails

structure StressDetails where
  session_id : Value
  stress_level : ℝ
  heartrate : ℝ
  activity : ℝ
  scrolling : ℝ
  jumping : ℝ
  focus_loss : ℝ

structure StressReport where
  overall_stress : ℝ
  session_details : List StressDetails

structure SessionLogItem where
  session_id : String
  user_name : String
  event_type : String
  description : String
  timestamp : ℚ
deriving DecidableEq, Repr

structure SessionLogReport where
  logs : List SessionLogItem
deriving DecidableEq, Repr

structure UserReport where
  session_count : ℕ
  average_session_time : ℝ
  focus_report : FocusReport
  stress_report : StressReport
  session_log : SessionLogReport

/-- The `_parse_session_log`: total reshaping of raw entries into the model. -/
def parse_session_log (raw_data : List LogEntry) : SessionLogReport :=
  { logs := raw_data.map fun item =>
      { session_id := item.session_id.pyStr
        user_name := item.user_name
        event_type := item.event_type
        description := item.event_description
        timestamp := item.timestamp } }

/-- The `_parse_stress_report`: total reshaping of the stress dict. -/
def parse_stress_report (raw_data : StressResult) : StressReport :=
  { overall_stress := raw_data.stress
    session_details := raw_data.sub_stress.map fun item =>
      { session_id := item.session_id
        stress_level := item.stress_level
        heartrate := item.heartrate
        activity := item.activity
        scrolling := item.scrolling
        jumping := item.jumping
        focus_loss := item.focus_loss } }

/-- The `_parse_focus_report` receives the raw concentration result, which is
`None` when `get_concentration_score` found no data; `None.get(...)` raises
`AttributeError` in Python, so the `None` case is an error, not a report. -/
def parse_focus_report (raw_data : Option ConcResult) : Except PyError FocusReport :=
  match raw_data with
  | none => .error .attributeError
  | some r => .ok
    { focus_score := r.concentration_score
      focus_details := r.sub_scores.map fun item =>
        { session_id := item.session_id
          text_scroll := item.text_scroll
          video_jump := item.video_jump
          video_pause := item.video_pause
          video_speed := item.video_speed
          tab_focus := item.tab_focus
          physical_activity := item.physical_activity
          weak_signal := item.weak_signal
          watch_off := item.watch_off } }

/-! ## Report assembler (service.py) and HTTP boundary (main.py) -/

/-- The `first_session_id` local of `get_user_report`: the first stress
session's id, `None` when the breakdown is empty. -/
def firstSessionId (raw_stress : StressResult) : Option Value :=
  match raw_stress.sub_stress with
  | [] => none
  | s :: _ => some s.session_id

/-- The `raw_log` local of `get_user_report`: the narrative of the first
stress session, whose id is passed through `str(...)` (and Python
truthiness skips a falsy id such as `None` or `0`). -/
def rawSessionLog (df : List Row) (user_id : String) (fsid : Option Value) :
    List LogEntry :=
  match fsid with
  | some v =>
    if v.truthy then generate_session_log df user_id (Value.vStr v.pyStr) else []
  | none => []

/-- The `get_user_report`: run the stress and concentration scorers, build the
narrative of the first stress session (its id passed through `str(...)`),
parse everything into models and assemble the report. Any exception raised
along the way propagates to the caller. -/
noncomputable def get_user_report (df : List Row) (user_id : String)
    (start_date end_date : ℚ) : Except PyError UserReport := do
  let raw_stress := stress_report df user_id start_date end_date
  let raw_concentration := get_concentration_score df user_id start_date end_date
  let first_session_id : Option Value := firstSessionId raw_stress
  let raw_log : List LogEntry := rawSessionLog df user_id first_session_id
  let stress_model := parse_stress_report raw_stress
  let focus_model ← parse_focus_report raw_concentration
  let log_model := parse_session_log raw_log
  let session_count := get_number_of_sessions df user_id start_date end_date
  let average_session_time := get_average_session_time df user_id start_date end_date
  return { session_count := session_count
           average_session_time := ((average_session_time : ℚ) : ℝ)
           focus_report := focus_model
           stress_report := stress_model
           session_log := log_model }

/-- An HTTP-boundary outcome of the report endpoint. -/
inductive HttpOutcome where
  | ok (report : UserReport)
  | notReady503 (detail : String)
  | notFound404 (detail : String)
  | internalError500 (raised : PyError)

/-- The `/student/report/` endpoint: 503 while the lake is empty; the report
otherwise, with `except ValueError` mapped to 404 and any other exception
propagating out of the handler as a 500-equivalent internal error. -/
noncomputable def student_report (lake : List Row) (user_id : String)
    (start_date end_date : ℚ) : HttpOutcome :=
  if lake = [] then
    .notReady503 "Data lake is not yet available. Please try again in a few moments."
  else
    match get_user_report lake user_id start_date end_date with
    | .ok report => .ok report
    | .error e =>
      if e = PyError.valueError then .notFound404 "no data" else .internalError500 e

/-! ## Event normalizer (utils.parse_body) and lake builder (dataframeloader.py) -/

/-- A JSON value inside a raw event payload: number, string, or nested
object of numeric sub-fields (the shape `heartrate_change` has). -/
inductive BVal where
  | num (q : ℚ)
  | str (s : String)
  | obj (fields : List (String × ℚ))
deriving DecidableEq, Repr

/-- A raw payload: the untyped key-value body of one event. -/
def Body : Type := List (String × BVal)

/-- The `body[key]`: `KeyError` when the key is missing. -/
def bodyGet (body : Body) (key : String) : Except PyError BVal :=
  match List.lookup key body with
  | some v => .ok v
  | none => .error .keyError

/-- The `body[key]` expected to be a scalar number. -/
def bodyNum (body : Body) (key : String) : Except PyError ℚ := do
  match ← bodyGet body key with
  | .num q => .ok q
  | _ => .error .typeError

/-- The `body[key][sub]` for the nested `heartrate_change` object. -/
def bodyObjNum (body : Body) (key sub : String) : Except PyError ℚ := do
  match ← bodyGet body key with
  | .obj fields =>
    match List.lookup sub fields with
    | some q => .ok q
    | none => .error .keyError
  | _ => .error .typeError

/-- The `parse_date` applied to a payload timestamp field. Epoch-millisecond
numbers map to the same instant; ISO strings go through pandas and are not
exercised by any claim, so the string branch is left as the parser's failure
branch of the embedded fragment. -/
def parseDateVal (v : BVal) : Except PyError ℚ :=
  match v with
  | .num q => .ok q
  | .str _ => .error .valueError
  | .obj _ => .error .typeError

/-- The `body[key]` parsed as a timestamp. -/
def bodyDate (body : Body) (key : String) : Except PyError ℚ := do
  parseDateVal (← bodyGet body key)

/-- The `parse_body`: decode a payload into the typed field set of its declared
event type. A null type yields the empty field set and an unknown type the
`other_type` marker, both without touching the payload; a known type whose
payload misses an expected key raises `KeyError`. -/
def parse_body (body : Body) (event_type : Option String) : Except PyError EventData := do
  match event_type with
  | none => return .nullType
  | some t =>
    if t = "USER_HEARTRATE" then
      return .heartrate (← bodyObjNum body "heartrate_change" "value")
        (← bodyObjNum body "heartrate_change" "count")
        (← bodyObjNum body "heartrate_change" "mean")
    else if t = "USER_PHYSICAL_ACTIVITY" then
      return .physicalActivity (← bodyDate body "detected_at")
        (← bodyNum body "speed")
    else if t = "WEAK_RSSI" then
      return .weakRssi (← bodyNum body "rssi")
    else if t = "WEARABLE_OFF" then
      return .wearableOff (← bodyDate body "time")
    else if t = "TEXT_SCROLL" then
      return .textScroll (← do
          match ← bodyGet body "scroll_direction" with
          | .str s => pure s
          | .num q => pure (toString q)
          | _ => throw .typeError)
        (← bodyNum body "scroll_distance")
        (← bodyNum body "current_scroll_position")
        (← bodyDate body "timestamp")
    else if t = "TAB_FOCUS_GAIN" then
      return .tabFocusGain (← bodyDate body "timestamp")
    else if t = "TAB_FOCUS_LOST" then
      return .tabFocusLost (← bodyDate body "timestamp")
    else if t = "UNPIN_SCREEN" then
      return .unpinScreen (← bodyDate body "removed_at")
    else if t = "VIDEO_PAUSED" then
      return .videoPaused (← bodyDate body "timestamp") (← bodyNum body "duration")
    else if t = "VIDEO_JUMP" then
      return .videoJump (← bodyDate body "timestamp") (← bodyNum body "jump_to")
        (← do
          match ← bodyGet body "direction" with
          | .str s => pure s
          | .num q => pure (toString q)
          | _ => throw .typeError)
    else if t = "VIDEO_SPEED_CHANGED" then
      return .videoSpeedChanged (← bodyDate body "timestamp") (← bodyNum body "speed")
    else if t = "VIDEO_PERCENTAGE" then
      return .videoPercentage (← bodyDate body "timestamp")
        (← bodyNum body "percentage")
    else
      return .otherType t

/-- A raw event document from the store. -/
structure RawReport where
  userId : String
  sessionId : Value
  courseId : ℤ
  etype : Option String
  addedAt : ℚ
  body : Body

/-- A user reference record. -/
structure UserRec where
  user_id : String
  name : String
  lastname : String

/-- A course reference record. -/
structure CourseRec where
  course_id : ℤ
  title : String
  teacher_id : String

/-- The columns of `pd.DataFrame(data)`: a `None` result of a failed fetch
(or an empty record list) builds an empty frame with no columns at all. -/
def frameCols {α : Type} (data : Option (List α)) (cols : List String) : List String :=
  match data with
  | none => []
  | some rows => if rows.isEmpty then [] else cols

/-- The `pd.merge(..., left_on=c, ...)` raises `KeyError` when the key column is
absent from the frame. -/
def requireCol (cols : List String) (c : String) : Except PyError Unit :=
  if c ∈ cols then .ok () else .error .keyError

/-- Rows deduplicated on the full metric-field tuple (`drop_duplicates` with
`subset=metric_columns`, first occurrence kept; unknown-typed and null-typed
rows all share the all-NaN tuple, which pandas treats as one duplicate key). -/
def dedupKeyOf (d : EventData) : Option EventData :=
  match d with
  | .otherType _ => none
  | .nullType => none
  | d => some d

def dropMetricDuplicates : List Row → List (Option EventData) → List Row
  | [], _ => []
  | r :: rs, seen =>
    if dedupKeyOf r.data ∈ seen then dropMetricDuplicates rs seen
    else r :: dropMetricDuplicates rs (dedupKeyOf r.data :: seen)

/-- The `load_lake`: right-join events onto the fetched user reference, left-join
the fetched course reference, normalize each payload via `parse_body`, drop
the raw body and deduplicate on the metric tuple. A fetch that failed is the
`none` argument (the API client returns `None` on an HTTP error, and
`pd.DataFrame(None)` has no columns, so the subsequent merge raises
`KeyError` on the missing join key). -/
def load_lake (users : Option (List UserRec)) (courses : Option (List CourseRec))
    (reports : List RawReport) : Except PyError (List Row) := do
  let userCols := ["user_id", "name", "lastname"]
  let courseCols := ["course_id", "title", "teacher_id"]
  let reportCols := ["userId", "sessionId", "courseId", "type", "addedAt", "body"]
  requireCol (frameCols users userCols) "user_id"
  requireCol (frameCols (some reports) reportCols) "userId"
  requireCol (frameCols (some reports) reportCols) "courseId"
  requireCol (frameCols courses courseCols) "course_id"
  let userList := users.getD []
  let courseList := courses.getD []
  let processed ← reports.mapM fun rep => do
    let matched_user := userList.find? fun u => u.user_id == rep.userId
    let _matched_course := courseList.find? fun c => c.course_id == rep.courseId
    let data ← parse_body rep.body rep.etype
    return ({ userId := rep.userId
              user_id := matched_user.map UserRec.user_id
              name := matched_user.map UserRec.name
              sessionId := rep.sessionId
              courseId := rep.courseId
              addedAt := rep.addedAt
              data := data } : Row)
  return dropMetricDuplicates processed []

/-- The published state once FastAPI finished startup. -/
structure ServiceState where
  lake : List Row

/-- The `lifespan` startup path: one synchronous `load_lake` with no
exception handling, then the refresh task is scheduled; an exception from
that first build propagates and aborts application startup (the periodic
refresh loop, by contrast, wraps its builds in `try/except`). -/
def lifespan_startup (first_build : Except PyError (List Row)) :
    Except PyError ServiceState := do
  let lake ← first_build
  return { lake := lake }

/-! ## Concrete fixtures used by the claims -/

/-- A heart-rate sample row of the demo session. -/
def hrDemoRow (t m : ℚ) : Row :=
  { userId := "u", user_id := some "u", name := some "Ana",
    sessionId := .vInt 1, courseId := 7, addedAt := t,
    data := .heartrate 0 1 m }

/-- A session whose heart-rate samples are 90, 105, 95, 70 in chronological
order. -/
def hrDemoSession : List Row :=
  [hrDemoRow 1000 90, hrDemoRow 2000 105, hrDemoRow 3000 95, hrDemoRow 4000 70]

/-- The single TEXT_SCROLL event (direction "down", distance 250) of the
end-to-end scroll fixture. -/
def scrollDemoRow : Row :=
  { userId := "u1", user_id := some "u1", name := some "Ana",
    sessionId := .vInt 1, courseId := 7, addedAt := 0,
    data := .textScroll "down" 250 0 0 }

/-- A session with one speed-change event at exactly 2.0x. -/
def speedDemoRow : Row :=
  { userId := "u1", user_id := some "u1", name := some "Ana",
    sessionId := .vInt 1, courseId := 7, addedAt := 0,
    data := .videoSpeedChanged 0 2 }

/-- A valid user reference record. -/
def demoUser : UserRec := { user_id := "u1", name := "Ana", lastname := "A" }

/-- A valid course reference record. -/
def demoCourse : CourseRec := { course_id := 7, title := "Algebra", teacher_id := "t1" }

/-- A raw TEXT_SCROLL event with a complete payload. -/
def demoReport : RawReport :=
  { userId := "u1", sessionId := .vInt 1, courseId := 7,
    etype := some "TEXT_SCROLL", addedAt := 0,
    body := [("scroll_direction", .str "down"), ("scroll_distance", .num 250),
             ("current_scroll_position", .num 0), ("timestamp", .num 0)] }

/-- A raw USER_HEARTRATE event whose payload is missing the expected
`heartrate_change` key. -/
def badHeartrateReport : RawReport :=
  { userId := "u1", sessionId := .vInt 1, courseId := 7,
    etype := some "USER_HEARTRATE", addedAt := 5, body := [] }

/-- A session whose single TEXT_SCROLL event has a negative distance. -/
def negScrollRow : Row :=
  { userId := "u2", user_id := some "u2", name := some "Bob",
    sessionId := .vInt 1, courseId := 7, addedAt := 0,
    data := .textScroll "down" (-10000) 0 0 }

/-! ## Lemmas about the generic helpers -/

theorem mem_insertLe {α : Type} (le : α → α → Bool) (x : α) (l : List α) (y : α) :
    y ∈ insertLe le x l ↔ y = x ∨ y ∈ l := by
  induction l with
  | nil => simp [insertLe]
  | cons a as ih =>
    simp only [insertLe]
    by_cases h : le x a = true
    · rw [if_pos h]
      simp [List.mem_cons]
    · rw [if_neg h]
      simp only [List.mem_cons, ih]
      tauto

theorem mem_isortBy {α : Type} (le : α → α → Bool) (l : List α) (y : α) :
    y ∈ isortBy le l ↔ y ∈ l := by
  induction l with
  | nil => simp [isortBy]
  | cons a as ih => simp [isortBy, mem_insertLe, ih]

theorem isortBy_eq_nil_iff {α : Type} (le : α → α → Bool) (l : List α) :
    isortBy le l = [] ↔ l = [] := by
  cases l with
  | nil => simp [isortBy]
  | cons a as =>
    simp only [isortBy]
    constructor
    · intro h
      have : a ∈ insertLe le a (isortBy le as) := by
        rw [mem_insertLe]; exact Or.inl rfl
      rw [h] at this
      simp at this
    · intro h; cases h

theorem mem_dedupKeys {α : Type} [DecidableEq α] (l : List α) :
    ∀ y, y ∈ dedupKeys l ↔ y ∈ l := by
  induction l with
  | nil => intro y; simp [dedupKeys]
  | cons a as ih =>
    intro y
    by_cases h : a ∈ dedupKeys as
    · rw [dedupKeys, if_pos h, ih y, List.mem_cons]
      have ha : a ∈ as := (ih a).mp h
      constructor
      · exact Or.inr
      · rintro (rfl | hy)
        · exact ha
        · exact hy
    · rw [dedupKeys, if_neg h, List.mem_cons, List.mem_cons, ih y]

theorem list_sum_le_len_mul (l : List ℚ) (b : ℚ) (h : ∀ x ∈ l, x ≤ b) :
    l.sum ≤ (l.length : ℚ) * b := by
  induction l with
  | nil => simp
  | cons x xs ih =>
    have hx := h x (by simp)
    have := ih (fun y hy => h y (List.mem_cons_of_mem _ hy))
    simp only [List.sum_cons, List.length_cons]
    push_cast
    linarith

theorem len_mul_le_list_sum (l : List ℚ) (a : ℚ) (h : ∀ x ∈ l, a ≤ x) :
    (l.length : ℚ) * a ≤ l.sum := by
  induction l with
  | nil => simp
  | cons x xs ih =>
    have hx := h x (by simp)
    have := ih (fun y hy => h y (List.mem_cons_of_mem _ hy))
    simp only [List.sum_cons, List.length_cons]
    push_cast
    linarith

theorem qMean_bounds (l : List ℚ) (a b : ℚ) (hne : l ≠ [])
    (h : ∀ x ∈ l, a ≤ x ∧ x ≤ b) : a ≤ qMean l ∧ qMean l ≤ b := by
  have hlen : 0 < (l.length : ℚ) := by
    have : 0 < l.length := List.length_pos.mpr hne
    exact_mod_cast this
  have hlo := len_mul_le_list_sum l a (fun x hx => (h x hx).1)
  have hhi := list_sum_le_len_mul l b (fun x hx => (h x hx).2)
  constructor
  · rw [qMean, le_div_iff₀ hlen]
    linarith
  · rw [qMean, div_le_iff₀ hlen]
    linarith

theorem qList_prod_bounds (l : List ℚ) (h : ∀ x ∈ l, 0 ≤ x ∧ x ≤ 1) :
    0 ≤ l.prod ∧ l.prod ≤ 1 := by
  induction l with
  | nil => simp
  | cons x xs ih =>
    have hx := h x (by simp)
    have hxs := ih (fun y hy => h y (List.mem_cons_of_mem _ hy))
    simp only [List.prod_cons]
    constructor
    · exact mul_nonneg hx.1 hxs.1
    · nlinarith [hx.1, hx.2, hxs.1, hxs.2]

theorem qMean_nonneg (l : List ℚ) (h : ∀ x ∈ l, 0 ≤ x) : 0 ≤ qMean l :=
  div_nonneg (List.sum_nonneg h) (by positivity)

theorem qMean_pos_of_ne_zero (l : List ℚ) (h : ∀ x ∈ l, 0 ≤ x)
    (hne : qMean l ≠ 0) : 0 < qMean l :=
  lt_of_le_of_ne (qMean_nonneg l h) (Ne.symm hne)

theorem mem_sessionKeys (df : List Row) (k : Value) :
    k ∈ sessionKeys df ↔ k ∈ df.map Row.sessionId ∧ k ≠ Value.vNull := by
  rw [sessionKeys, mem_isortBy, mem_dedupKeys, List.mem_filter]
  simp

theorem groupbySessionId_groups_ne_nil (df : List Row) :
    ∀ g ∈ groupbySessionId df, g.2 ≠ [] := by
  intro g hg
  rw [groupbySessionId, List.mem_map] at hg
  obtain ⟨k, hk, rfl⟩ := hg
  rw [mem_sessionKeys] at hk
  obtain ⟨r, hr, hrk⟩ := List.mem_map.mp hk.1
  intro hnil
  have hmem : r ∈ List.filter (fun r => r.sessionId == k) df := by
    rw [List.mem_filter]
    exact ⟨hr, by simp [hrk]⟩
  have hfil : List.filter (fun r => r.sessionId == k) df = [] := hnil
  rw [hfil] at hmem
  simp at hmem

/-! ## Claims -/

/-- C3, counterexample: the claim says a speed of exactly 2.0x scores 0, but
`score_speed 2.0` takes the `1.25 < s <= 2.0` branch and yields
`1 - 0.5 * 0.75 = 0.625`, and a session consisting of one speed-change at
2.0x scores 0.625, not 0. -/
theorem claim_C3_counterexample :
    score_speed 2 = 5/8 ∧ (5/8 : ℚ) ≠ 0 ∧
      calculate_video_speed_score [speedDemoRow] = 5/8 := by
  have hse : speedEvents [speedDemoRow] = [2] := rfl
  refine ⟨by norm_num [score_speed], by norm_num, ?_⟩
  simp only [calculate_video_speed_score, hse]
  norm_num [score_speed, qMean]

/-- C3, amended: the per-event video-speed score is 1.0 for speeds at most
1.25x, decays linearly with slope 0.5 per unit on (1.25, 2.0] — reaching
0.625 (not 0) at exactly 2.0x — and drops to 0 for any speed beyond 2.0x;
the session sub-score is the mean of per-event scores over the session's
speed-change events, and a session with none scores 1.0. -/
theorem claim_C3_video_speed :
    (∀ s : ℚ, s ≤ 5/4 → score_speed s = 1) ∧
    (∀ s : ℚ, 5/4 < s → s ≤ 2 → score_speed s = 1 - 1/2 * (s - 5/4)) ∧
    (∀ s : ℚ, 2 < s → score_speed s = 0) ∧
    (∀ df : List Row, speedEvents df ≠ [] →
      calculate_video_speed_score df = qMean ((speedEvents df).map score_speed)) ∧
    (∀ df : List Row, speedEvents df = [] → calculate_video_speed_score df = 1) := by
  refine ⟨?_, ?_, ?_, ?_, ?_⟩
  · intro s hs
    rw [score_speed, if_pos hs]
  · intro s h1 h2
    rw [score_speed, if_neg (not_le.mpr h1), if_pos h2]
  · intro s h2
    rw [score_speed, if_neg (not_le.mpr (by linarith)), if_neg (not_le.mpr h2)]
  · intro df hne
    rw [calculate_video_speed_score, if_neg hne]
  · intro df hnil
    rw [calculate_video_speed_score, if_pos hnil]

/-- C3, witness: the amended statement evaluated at concrete speeds 1.25,
1.5 and 3, at the one-event 2.0x session and at the empty session. -/
theorem claim_C3_video_speed_witness :
    score_speed (5/4) = 1 ∧ score_speed (3/2) = 1 - 1/2 * (3/2 - 5/4) ∧
      score_speed 3 = 0 ∧
      calculate_video_speed_score [speedDemoRow] =
        qMean ((speedEvents [speedDemoRow]).map score_speed) ∧
      calculate_video_speed_score [] = 1 :=
  ⟨claim_C3_video_speed.1 (5/4) (by norm_num),
   claim_C3_video_speed.2.1 (3/2) (by norm_num) (by norm_num),
   claim_C3_video_speed.2.2.1 3 (by norm_num),
   claim_C3_video_speed.2.2.2.1 [speedDemoRow] (by decide),
   claim_C3_video_speed.2.2.2.2 [] (by decide)⟩

/-- C4: in the narrative generator, a heart-rate sample emits an entry
exactly on a stress-flag transition (enter above 100bpm while calm, exit
below 80bpm while stressed) and a physical-activity sample exactly on an
activity-flag transition (enter above 1.0 m/s, exit below while active) —
never on a sample at the already-current state; and the session whose
heart-rate samples are 90, 105, 95, 70 in chronological order produces
exactly one STRESS_INCREASED and exactly one STRESS_DECREASED entry. -/
theorem claim_C4_hysteresis :
    (∀ (un : String) (st : Bool × Bool) (v c m : ℚ),
      (emitFor un st (.heartrate v c m)).2 ≠ none ↔
        (m > 100 ∧ st.1 = false) ∨ (m < 80 ∧ st.1 = true)) ∧
    (∀ (un : String) (st : Bool × Bool) (dt sp : ℚ),
      (emitFor un st (.physicalActivity dt sp)).2 ≠ none ↔
        (sp > 1 ∧ st.2 = false) ∨ (sp < 1 ∧ st.2 = true)) ∧
    (generate_session_log hrDemoSession "u" (.vInt 1)).countP
      (fun e => e.event_type == "STRESS_INCREASED") = 1 ∧
    (generate_session_log hrDemoSession "u" (.vInt 1)).countP
      (fun e => e.event_type == "STRESS_DECREASED") = 1 := by
  refine ⟨?_, ?_, by decide, by decide⟩
  · intro un st v c m
    rw [emitFor, STRESS_HR_THRESHOLD, CALM_HR_THRESHOLD]
    split_ifs with h1 h2
    · simp only [ne_eq, reduceCtorEq, not_false_eq_true, true_iff]
      exact Or.inl h1
    · simp only [ne_eq, reduceCtorEq, not_false_eq_true, true_iff]
      exact Or.inr h2
    · simp only [ne_eq, not_true_eq_false, false_iff]
      tauto
  · intro un st dt sp
    rw [emitFor, ACTIVITY_SPEED_THRESHOLD]
    split_ifs with h1 h2
    · simp only [ne_eq, reduceCtorEq, not_false_eq_true, true_iff]
      exact Or.inl h1
    · simp only [ne_eq, reduceCtorEq, not_false_eq_true, true_iff]
      exact Or.inr h2
    · simp only [ne_eq, not_true_eq_false, false_iff]
      tauto

/-- C9, counterexample: a row at `end + 150ms` with agreeing `userId` and
`user_id` columns is selected by the concentration filter (whose window is
`[start, end + 1 day)`) but not by the stress filter (whose window is
`[start, end]`), so the two selections are not equal for every table. -/
theorem claim_C9_counterexample :
    stressSlice [hrDemoRow 250 90] "u" 0 100 = [] ∧
      concentrationSlice [hrDemoRow 250 90] "u" 0 100 = [hrDemoRow 250 90] := by
  constructor
  · decide
  · simp only [concentrationSlice, dayMs, hrDemoRow, List.filter]
    norm_num

/-- C9, amended: the two window filters differ — stress selects on the
`user_id` reference column with an inclusive end bound at the parsed end
date, concentration on the `userId` event column with an exclusive bound one
day past it — but on every table whose `user_id` reference column agrees
with the `userId` event column, each row selected by the stress filter is
also selected by the concentration filter. -/
theorem claim_C9_stress_subset_concentration (df : List Row) (uid : String)
    (start end_ : ℚ) (hagree : ∀ r ∈ df, r.user_id = some r.userId) :
    ∀ r ∈ stressSlice df uid start end_,
      r ∈ concentrationSlice df uid start end_ := by
  intro r hr
  rw [stressSlice, List.mem_filter] at hr
  obtain ⟨hmem, hcond⟩ := hr
  simp only [Bool.and_eq_true, beq_iff_eq, decide_eq_true_eq] at hcond
  rw [concentrationSlice, List.mem_filter]
  refine ⟨hmem, ?_⟩
  have hag := hagree r hmem
  simp only [Bool.and_eq_true, beq_iff_eq, decide_eq_true_eq]
  refine ⟨⟨?_, hcond.1.2⟩, ?_⟩
  · have : r.user_id = some uid := hcond.1.1
    rw [hag] at this
    exact (Option.some_injective _ this)
  · have hend := hcond.2
    rw [dayMs]
    linarith

/-- C9, witness: the subset direction applied to a one-row table inside both
windows. -/
theorem claim_C9_stress_subset_concentration_witness :
    (∀ r ∈ [hrDemoRow 50 90], r.user_id = some r.userId) ∧
      hrDemoRow 50 90 ∈ concentrationSlice [hrDemoRow 50 90] "u" 0 100 :=
  ⟨by decide,
   claim_C9_stress_subset_concentration [hrDemoRow 50 90] "u" 0 100 (by decide)
     (hrDemoRow 50 90) (by decide)⟩

/-- C6: the claim says a failed fetch of one reference source degrades to
an empty reference table and the build still publishes; in the code the
API client returns `None` on the failed fetch, `pd.DataFrame(None)` is a
frame with no columns, and `pd.merge` on the absent join key raises
`KeyError`, so the whole build aborts instead — for a failed user fetch
unconditionally, and for a failed course fetch on any otherwise-valid
input. -/
theorem claim_C6_reference_fetch_aborts_build :
    (∀ (courses : Option (List CourseRec)) (reports : List RawReport),
      load_lake none courses reports = .error .keyError) ∧
    load_lake (some [demoUser]) none [demoReport] = .error .keyError := by
  exact ⟨fun courses reports => rfl, rfl⟩

/-- C7: the claim says a payload missing an expected key fails only that
event's normalization and never aborts the whole build; `parse_body` does
raise (`KeyError`) on the missing key, but the row-wise `apply` in
`load_lake` propagates it, so one malformed USER_HEARTRATE payload aborts
the entire build. Null and unknown event types do yield the empty/marker
result without raising, for every payload. -/
theorem claim_C7_malformed_event_aborts_build :
    parse_body [] (some "USER_HEARTRATE") = .error .keyError ∧
    load_lake (some [demoUser]) (some [demoCourse]) [demoReport, badHeartrateReport]
      = .error .keyError ∧
    (∀ body : Body, parse_body body none = .ok .nullType) ∧
    (∀ body : Body, parse_body body (some "SOME_FUTURE_TYPE")
      = .ok (.otherType "SOME_FUTURE_TYPE")) := by
  exact ⟨rfl, rfl, fun body => rfl, fun body => rfl⟩

/-- C8: the claim says the service still starts when the very first build
fails and reports 503 until a build succeeds; the startup path of
`lifespan` runs that first `load_lake` with no exception handling, so a
failing first build propagates its error and startup aborts (the service
does not start), while the 503 guard only exists for a started service
whose lake is empty. -/
theorem claim_C8_first_build_failure_aborts_startup :
    (∀ e : PyError, lifespan_startup (.error e) = .error e) ∧
    (∀ lake : List Row, lifespan_startup (.ok lake) = .ok { lake := lake }) ∧
    (∀ (uid : String) (s e : ℚ), student_report [] uid s e = .notReady503
      "Data lake is not yet available. Please try again in a few moments.") := by
  exact ⟨fun e => rfl, fun lake => rfl, fun uid s e => rfl⟩

/-- C5: the claim says an empty filtered slice surfaces as a "not found"
(404-equivalent) `NoDataError`; in the code `get_concentration_score`
returns `None` for the empty slice, `_parse_focus_report(None)` raises
`AttributeError`, and the endpoint only catches `ValueError`, so the
request fails as an unhandled internal error (500-equivalent) instead. -/
theorem claim_C5_empty_slice_is_internal_error (lake : List Row) (uid : String)
    (s e : ℚ) (hne : lake ≠ [])
    (hstress : stressSlice lake uid s e = [])
    (hconc : concentrationSlice lake uid s e = []) :
    student_report lake uid s e = .internalError500 .attributeError := by
  rw [student_report, if_neg hne]
  have hgr : get_user_report lake uid s e = .error .attributeError := by
    rw [get_user_report]
    simp only [stress_report, hstress, get_concentration_score, hconc,
      if_pos rfl, parse_focus_report]
    rfl
  rw [hgr]
  rfl

/-- C5, witness: a one-row lake queried for a different user has an empty
slice under both filters, and the endpoint answers with the unhandled
`AttributeError`. -/
theorem claim_C5_empty_slice_is_internal_error_witness :
    ([scrollDemoRow] : List Row) ≠ [] ∧
      stressSlice [scrollDemoRow] "nobody" 0 100 = [] ∧
      concentrationSlice [scrollDemoRow] "nobody" 0 100 = [] ∧
      student_report [scrollDemoRow] "nobody" 0 100
        = .internalError500 .attributeError :=
  ⟨by decide, by decide, by decide,
   claim_C5_empty_slice_is_internal_error [scrollDemoRow] "nobody" 0 100
     (by decide) (by decide) (by decide)⟩

/-- The narrative generator matches no rows when every `sessionId` cell is
an integer but the requested session id is a string: the equality filter
compares an integer cell with a string and is false on every row. -/
theorem generate_session_log_nil_of_int_ids (df : List Row) (uid str_ : String)
    (hint : ∀ r ∈ df, ∃ n : ℤ, r.sessionId = .vInt n) :
    generate_session_log df uid (.vStr str_) = [] := by
  have hfil : df.filter
      (fun r => r.userId == uid && r.sessionId == Value.vStr str_) = [] := by
    rw [List.filter_eq_nil_iff]
    intro r hr
    obtain ⟨n, hn⟩ := hint r hr
    simp [hn]
  rw [generate_session_log, hfil]
  rfl

/-- With integer session ids the assembler's `raw_log` is empty: a falsy id
is skipped, and a truthy id is stringified and then matches no rows. -/
theorem rawSessionLog_nil_of_int_ids (df : List Row) (uid : String)
    (hint : ∀ r ∈ df, ∃ n : ℤ, r.sessionId = .vInt n) :
    ∀ fsid, (fsid = none ∨ ∃ n : ℤ, fsid = some (.vInt n)) →
      rawSessionLog df uid fsid = [] := by
  intro fsid hf
  rcases hf with rfl | ⟨n, rfl⟩
  · rfl
  · rw [rawSessionLog]
    by_cases hn : (Value.vInt n).truthy
    · rw [if_pos hn, Value.pyStr]
      exact generate_session_log_nil_of_int_ids df uid _ hint
    · rw [if_neg hn]

/-- Over a table of integer session ids, the first stress session's id is
either absent or an integer cell. -/
theorem firstSessionId_int_or_none (df : List Row) (uid : String) (s e : ℚ)
    (hint : ∀ r ∈ df, ∃ n : ℤ, r.sessionId = .vInt n) :
    firstSessionId (stress_report df uid s e) = none ∨
    ∃ n : ℤ, firstSessionId (stress_report df uid s e) = some (.vInt n) := by
  rw [stress_report]
  by_cases hdfx : stressSlice df uid s e = []
  · rw [if_pos hdfx]; left; rfl
  · rw [if_neg hdfx]
    rcases hks : sessionKeys (stressSlice df uid s e) with _ | ⟨k, ks⟩
    · left
      simp [firstSessionId, stress_score_, groupbySessionId, hks]
    · right
      have hk : k ∈ sessionKeys (stressSlice df uid s e) := by rw [hks]; simp
      rw [mem_sessionKeys] at hk
      obtain ⟨r, hr, hrk⟩ := List.mem_map.mp hk.1
      have hrdf : r ∈ df := (List.mem_filter.mp hr).1
      obtain ⟨n, hn⟩ := hint r hrdf
      refine ⟨n, ?_⟩
      simp only [firstSessionId, stress_score_, groupbySessionId, hks, List.map_cons]
      rw [← hrk, hn]
      rfl

/-- A nonempty concentration slice with a non-null session key yields a
report (`Some`), since its groupby produces at least one scored session. -/
theorem get_concentration_score_some (df : List Row) (uid : String) (s e : ℚ)
    (hconc : concentrationSlice df uid s e ≠ [])
    (hkey : ∃ r ∈ concentrationSlice df uid s e, r.sessionId ≠ .vNull) :
    ∃ res, get_concentration_score df uid s e = some res := by
  rw [get_concentration_score]
  simp only [if_neg hconc]
  rw [get_concentration_score_no_filter]
  simp only [if_neg hconc]
  obtain ⟨r, hr, hrnn⟩ := hkey
  have hkmem : r.sessionId ∈ sessionKeys (concentrationSlice df uid s e) := by
    rw [mem_sessionKeys]
    exact ⟨List.mem_map_of_mem Row.sessionId hr, hrnn⟩
  have hgr : groupbySessionId (concentrationSlice df uid s e) ≠ [] := by
    rw [groupbySessionId]
    intro hcon
    rw [List.map_eq_nil_iff] at hcon
    rw [hcon] at hkmem
    simp at hkmem
  rcases hg : groupbySessionId (concentrationSlice df uid s e) with _ | ⟨g, gs⟩
  · exact absurd hg hgr
  · simp only [hg, List.map_cons]
    exact ⟨_, by rw [if_neg (by simp)]⟩

/-- C10: over a lake whose `sessionId` cells are all integers, a user
report request with a nonempty slice under both scorers' filters succeeds
and carries an empty narrative: the assembler stringifies the first stress
session's id, and the narrative generator's equality filter on the integer
`sessionId` column then matches no rows. -/
theorem claim_C10_session_log_always_empty (df : List Row) (uid : String)
    (s e : ℚ)
    (hint : ∀ r ∈ df, ∃ n : ℤ, r.sessionId = .vInt n)
    (hstress : stressSlice df uid s e ≠ [])
    (hconc : concentrationSlice df uid s e ≠ []) :
    (get_user_report df uid s e).map (fun rep => rep.session_log.logs)
      = .ok ([] : List SessionLogItem) := by
  obtain ⟨res, hres⟩ := get_concentration_score_some df uid s e hconc (by
    rcases List.exists_mem_of_ne_nil _ hconc with ⟨r, hr⟩
    have hrdf : r ∈ df := (List.mem_filter.mp hr).1
    obtain ⟨n, hn⟩ := hint r hrdf
    exact ⟨r, hr, by rw [hn]; simp⟩)
  have hlog : rawSessionLog df uid (firstSessionId (stress_report df uid s e)) = [] :=
    rawSessionLog_nil_of_int_ids df uid hint _
      (firstSessionId_int_or_none df uid s e hint)
  rw [get_user_report]
  simp only [hres, hlog, parse_focus_report, parse_session_log]
  rfl

/-- C10, witness: the one-scroll lake with integer session id 1 has
nonempty slices under both filters and its assembled report's narrative is
empty. -/
theorem claim_C10_session_log_always_empty_witness :
    (∀ r ∈ [scrollDemoRow], ∃ n : ℤ, r.sessionId = .vInt n) ∧
      stressSlice [scrollDemoRow] "u1" 0 100 ≠ [] ∧
      concentrationSlice [scrollDemoRow] "u1" 0 100 ≠ [] ∧
      (get_user_report [scrollDemoRow] "u1" 0 100).map
        (fun rep => rep.session_log.logs) = .ok ([] : List SessionLogItem) := by
  have h1 : ∀ r ∈ [scrollDemoRow], ∃ n : ℤ, r.sessionId = .vInt n := by
    intro r hr
    rw [List.mem_singleton] at hr
    subst hr
    exact ⟨1, rfl⟩
  have h2 : stressSlice [scrollDemoRow] "u1" 0 100 ≠ [] := by decide
  have h3 : concentrationSlice [scrollDemoRow] "u1" 0 100 ≠ [] := by
    have hm : scrollDemoRow ∈ concentrationSlice [scrollDemoRow] "u1" 0 100 := by
      rw [concentrationSlice, List.mem_filter]
      refine ⟨by simp, ?_⟩
      simp only [scrollDemoRow, dayMs]
      norm_num
    intro hnil
    rw [hnil] at hm
    simp at hm
  exact ⟨h1, h2, h3,
    claim_C10_session_log_always_empty [scrollDemoRow] "u1" 0 100 h1 h2 h3⟩

/-- The scroll sub-score of the single-scroll session: one sample means the
coefficient of variation is undefined, so consistency is 1.0, and quality is
`min(1, 250/500) = 0.5`; the blend gives `0.15 + 0.85 * 0.5 = 0.575`. -/
theorem single_scroll_text_score : calculate_text_scroll_score [scrollDemoRow] = 23/40 := by
  have hscroll : scrollEvents [scrollDemoRow] = [("down", 250)] := rfl
  have hq : get_quality "down" 250 = 1/2 := by
    have hbe : (("down" : String) == "up") = false := rfl
    simp only [get_quality, hbe, Bool.false_eq_true, if_false]
    norm_num [HRTC_DOWN_PX]
  simp only [calculate_text_scroll_score, hscroll, List.map_cons, List.map_nil, hq]
  norm_num [qMean]

/-- All eight sub-scores of the single-scroll session: scroll 0.575, jump 0
(the empty history defaults the per-session average to 5 and the session has
no jumps, so `max(0, 1 - 5/5) = 0`), everything else 1.0. -/
theorem single_scroll_subscores :
    concSubScoresOf (.vInt 1) [scrollDemoRow] [scrollDemoRow] =
    { session_id := .vInt 1, text_scroll := 23/40, video_jump := 0,
      video_pause := 1, video_speed := 1, tab_focus := 1,
      physical_activity := 1, weak_signal := 1, watch_off := 1 } := by
  have hj : calculate_video_jump_score [scrollDemoRow] [scrollDemoRow] = 0 := by
    have hje : jumpEvents [scrollDemoRow] = [] := rfl
    simp only [calculate_video_jump_score, hje]
    norm_num [groupbySessionId, sessionKeys, dedupKeys, isortBy, qMean]
  have htab : calculate_tab_focus_score [scrollDemoRow] = 1 := by
    norm_num [calculate_tab_focus_score, sessionStartMs, sessionEndMs, qMinD,
      qMaxD, scrollDemoRow]
  have hw : calculate_watch_off_score [scrollDemoRow] = 1 := by
    have hfw : ([scrollDemoRow].filter (fun r => r.hasType "WEARABLE_OFF")) = [] := rfl
    simp only [calculate_watch_off_score, hfw]
    norm_num
  have hp : calculate_video_pause_score [scrollDemoRow] = 1 := rfl
  have hs : calculate_video_speed_score [scrollDemoRow] = 1 := rfl
  have hpa : calculate_physical_activity_score [scrollDemoRow] = 1 := rfl
  have hws : calculate_weak_signal_score [scrollDemoRow] = 1 := rfl
  rw [concSubScoresOf]
  rw [single_scroll_text_score, hj, htab, hw, hp, hs, hpa, hws]
  norm_num

/-- The full concentration report of the single-scroll session: the
weighted aggregate is `0.15*0.575 + 0.15*0 + 0.7 = 0.78625 = 629/800`. -/
theorem single_scroll_report :
    get_concentration_score_no_filter [scrollDemoRow] [scrollDemoRow]
    = some ({ concentration_score := 629/800,
              sub_scores := [{ session_id := .vInt 1, text_scroll := 23/40,
                               video_jump := 0, video_pause := 1, video_speed := 1,
                               tab_focus := 1, physical_activity := 1,
                               weak_signal := 1, watch_off := 1 }] } : ConcResult) := by
  have hg : groupbySessionId [scrollDemoRow] = [(.vInt 1, [scrollDemoRow])] := rfl
  rw [get_concentration_score_no_filter]
  simp only [hg, List.map_cons, List.map_nil, single_scroll_subscores]
  rw [if_neg (by decide), if_neg (by simp)]
  have hfs : finalSessionScore
      { session_id := .vInt 1, text_scroll := 23/40, video_jump := 0,
        video_pause := 1, video_speed := 1, tab_focus := 1,
        physical_activity := 1, weak_signal := 1, watch_off := 1 } = 629/800 := by
    simp only [finalSessionScore, METRIC_WEIGHTS, List.map_cons, List.map_nil,
      ConcSubScores.metricValue, List.sum_cons, List.sum_nil]
    norm_num
  rw [hfs]
  norm_num

/-- C2, counterexample: the claim says every sub-score other than
TEXT_SCROLL is 1.0 for the single-scroll session, but the VIDEO_JUMP
sub-score is 0 (the user has no jump history, so the default average 5 makes
a zero-jump session score `max(0, 1 - 5/5) = 0`). -/
theorem claim_C2_counterexample :
    (get_concentration_score_no_filter [scrollDemoRow] [scrollDemoRow]).map
      (fun r => r.sub_scores.map fun sub => sub.video_jump) = some [(0 : ℝ)] ∧
    (0 : ℝ) ≠ 1 := by
  rw [single_scroll_report]
  norm_num

/-- C2, amended: for the session containing exactly the one TEXT_SCROLL
event (direction "down", distance 250) and no other events for that user,
the TEXT_SCROLL sub-score is 0.575 (0.15 consistency for a single sample
plus 0.85 * 0.5 quality), the VIDEO_JUMP sub-score is 0 (no history
defaults the average to 5), every remaining sub-score is 1.0, and the
weighted aggregate is 0.78625. -/
theorem claim_C2_single_scroll_end_to_end :
    get_concentration_score_no_filter [scrollDemoRow] [scrollDemoRow]
    = some ({ concentration_score := 629/800,
              sub_scores := [{ session_id := .vInt 1, text_scroll := 23/40,
                               video_jump := 0, video_pause := 1, video_speed := 1,
                               tab_focus := 1, physical_activity := 1,
                               weak_signal := 1, watch_off := 1 }] } : ConcResult) :=
  single_scroll_report

theorem qClamp_mem (x : ℚ) : 0 ≤ qClamp x ∧ qClamp x ≤ 1 := by
  rw [qClamp]
  constructor
  · exact le_max_left 0 _
  · exact max_le (by norm_num) (min_le_left 1 x)

theorem rClamp_mem (x : ℝ) : 0 ≤ rClamp x ∧ rClamp x ≤ 1 := by
  rw [rClamp]
  constructor
  · exact le_max_left 0 _
  · exact max_le (by norm_num) (min_le_left 1 x)

theorem npClip01_mem (x : ℚ) : 0 ≤ npClip01 x ∧ npClip01 x ≤ 1 := by
  rw [npClip01]
  constructor
  · exact le_min (le_max_right x 0) (by norm_num)
  · exact min_le_right _ 1

theorem metric_stress_heartrate_mem (df : List Row) :
    0 ≤ metric_stress_heartrate df ∧ metric_stress_heartrate df ≤ 1 := by
  rw [metric_stress_heartrate]
  split_ifs
  · norm_num
  · exact qClamp_mem _

theorem metric_stress_activity_mem (df : List Row) (thresh : ℚ) :
    0 ≤ metric_stress_activity df thresh ∧ metric_stress_activity df thresh ≤ 1 := by
  rw [metric_stress_activity]
  split_ifs with h
  · norm_num
  · have hlen : 0 < (df.length : ℚ) := by
      have : 0 < df.length := List.length_pos.mpr h
      exact_mod_cast this
    constructor
    · positivity
    · rw [div_le_one hlen]
      have h1 : ((activitySpeeds df).filter (fun s => s > thresh)).length ≤
          (activitySpeeds df).length := List.length_filter_le _ _
      have h2 : (activitySpeeds df).length ≤ df.length := List.length_filterMap_le _ _
      exact_mod_cast le_trans h1 h2

theorem metric_stress_scrolling_mem (df : List Row) :
    0 ≤ metric_stress_scrolling df ∧ metric_stress_scrolling df ≤ 1 := by
  rw [metric_stress_scrolling]
  split_ifs
  · norm_num
  · simp only []
    split_ifs
    · norm_num
    · exact rClamp_mem _

theorem metric_stress_video_jump_mem (df : List Row) (d : ℚ) :
    0 ≤ metric_stress_video_jump df d ∧ metric_stress_video_jump df d ≤ 1 := by
  rw [metric_stress_video_jump]
  split_ifs
  · norm_num
  · exact qClamp_mem _

theorem metric_stress_tab_focus_mem (df : List Row) (d : ℚ) :
    0 ≤ metric_stress_tab_focus df d ∧ metric_stress_tab_focus df d ≤ 1 := by
  rw [metric_stress_tab_focus]
  split_ifs
  · norm_num
  · exact qClamp_mem _

theorem rList_sum_le_len_mul (l : List ℝ) (b : ℝ) (h : ∀ x ∈ l, x ≤ b) :
    l.sum ≤ (l.length : ℝ) * b := by
  induction l with
  | nil => simp
  | cons x xs ih =>
    have hx := h x (by simp)
    have := ih (fun y hy => h y (List.mem_cons_of_mem _ hy))
    simp only [List.sum_cons, List.length_cons]
    push_cast
    linarith

theorem rLen_mul_le_list_sum (l : List ℝ) (a : ℝ) (h : ∀ x ∈ l, a ≤ x) :
    (l.length : ℝ) * a ≤ l.sum := by
  induction l with
  | nil => simp
  | cons x xs ih =>
    have hx := h x (by simp)
    have := ih (fun y hy => h y (List.mem_cons_of_mem _ hy))
    simp only [List.sum_cons, List.length_cons]
    push_cast
    linarith

theorem rMean_bounds (l : List ℝ) (a b : ℝ) (hne : l ≠ [])
    (h : ∀ x ∈ l, a ≤ x ∧ x ≤ b) :
    a ≤ l.sum / (l.length : ℝ) ∧ l.sum / (l.length : ℝ) ≤ b := by
  have hlen : 0 < (l.length : ℝ) := by
    have : 0 < l.length := List.length_pos.mpr hne
    exact_mod_cast this
  have hlo := rLen_mul_le_list_sum l a (fun x hx => (h x hx).1)
  have hhi := rList_sum_le_len_mul l b (fun x hx => (h x hx).2)
  constructor
  · rw [le_div_iff₀ hlen]
    linarith
  · rw [div_le_iff₀ hlen]
    linarith

theorem sessionStressOf_stress_level_mem (k : Value) (g : List Row) :
    0 ≤ (sessionStressOf k g).stress_level ∧ (sessionStressOf k g).stress_level ≤ 1 := by
  obtain ⟨h1a, h1b⟩ := metric_stress_heartrate_mem (g.filter (fun r => r.hasType "USER_HEARTRATE"))
  obtain ⟨h2a, h2b⟩ := metric_stress_activity_mem (g.filter (fun r => r.hasType "USER_PHYSICAL_ACTIVITY")) 1
  obtain ⟨h3a, h3b⟩ := metric_stress_scrolling_mem (g.filter (fun r => r.hasType "TEXT_SCROLL"))
  obtain ⟨h4a, h4b⟩ := metric_stress_video_jump_mem (g.filter (fun r => r.hasType "VIDEO_JUMP")) ((sessionEndMs g - sessionStartMs g) / 1000 / 60)
  obtain ⟨h5a, h5b⟩ := metric_stress_tab_focus_mem g ((sessionEndMs g - sessionStartMs g) / 1000 / 60)
  rw [sessionStressOf]
  simp only [stressWeights, List.map_cons, List.map_nil, List.sum_cons, List.sum_nil,
    SessionStress.metricValue]
  have c1a : (0:ℝ) ≤ ((metric_stress_heartrate (g.filter (fun r => r.hasType "USER_HEARTRATE")) : ℚ) : ℝ) := by exact_mod_cast h1a
  have c1b : ((metric_stress_heartrate (g.filter (fun r => r.hasType "USER_HEARTRATE")) : ℚ) : ℝ) ≤ 1 := by exact_mod_cast h1b
  have c2a : (0:ℝ) ≤ ((metric_stress_activity (g.filter (fun r => r.hasType "USER_PHYSICAL_ACTIVITY")) 1 : ℚ) : ℝ) := by exact_mod_cast h2a
  have c2b : ((metric_stress_activity (g.filter (fun r => r.hasType "USER_PHYSICAL_ACTIVITY")) 1 : ℚ) : ℝ) ≤ 1 := by exact_mod_cast h2b
  have c4a : (0:ℝ) ≤ ((metric_stress_video_jump (g.filter (fun r => r.hasType "VIDEO_JUMP")) ((sessionEndMs g - sessionStartMs g) / 1000 / 60) : ℚ) : ℝ) := by exact_mod_cast h4a
  have c4b : ((metric_stress_video_jump (g.filter (fun r => r.hasType "VIDEO_JUMP")) ((sessionEndMs g - sessionStartMs g) / 1000 / 60) : ℚ) : ℝ) ≤ 1 := by exact_mod_cast h4b
  have c5a : (0:ℝ) ≤ ((metric_stress_tab_focus g ((sessionEndMs g - sessionStartMs g) / 1000 / 60) : ℚ) : ℝ) := by exact_mod_cast h5a
  have c5b : ((metric_stress_tab_focus g ((sessionEndMs g - sessionStartMs g) / 1000 / 60) : ℚ) : ℝ) ≤ 1 := by exact_mod_cast h5b
  constructor <;> nlinarith [h3a, h3b]

theorem stress_score_mem (dfx : List Row) :
    0 ≤ (stress_score_ dfx).stress ∧ (stress_score_ dfx).stress ≤ 1 := by
  rw [stress_score_]
  simp only []
  split_ifs with h
  · norm_num
  · apply rMean_bounds _ 0 1 h
    intro x hx
    rw [List.mem_map] at hx
    obtain ⟨ss, hss, rfl⟩ := hx
    rw [List.mem_map] at hss
    obtain ⟨g, _, rfl⟩ := hss
    exact sessionStressOf_stress_level_mem g.1 g.2

theorem stress_report_mem (df : List Row) (uid : String) (s e : ℚ) :
    0 ≤ (stress_report df uid s e).stress ∧ (stress_report df uid s e).stress ≤ 1 := by
  rw [stress_report]
  split_ifs
  · norm_num
  · exact stress_score_mem _

theorem jump_formula_mem (ajs : ℚ) (sjs : ℕ) (hajs : 0 ≤ ajs) :
    0 ≤ (if ajs = 0 then (if sjs > 0 then (0:ℚ) else 1)
         else max 0 (1 - |((sjs:ℚ)) - ajs| / ajs)) ∧
    (if ajs = 0 then (if sjs > 0 then (0:ℚ) else 1)
     else max 0 (1 - |((sjs:ℚ)) - ajs| / ajs)) ≤ 1 := by
  by_cases hz : ajs = 0
  · simp only [if_pos hz]
    split_ifs <;> norm_num
  · simp only [if_neg hz]
    have hpos : 0 < ajs := lt_of_le_of_ne hajs (Ne.symm hz)
    have hfrac : 0 ≤ |((sjs:ℚ)) - ajs| / ajs := by positivity
    exact ⟨le_max_left 0 _, max_le (by norm_num) (by linarith)⟩

theorem calculate_video_jump_score_mem (s h : List Row) :
    0 ≤ calculate_video_jump_score s h ∧ calculate_video_jump_score s h ≤ 1 := by
  simp only [calculate_video_jump_score]
  apply jump_formula_mem
  split_ifs with hh
  · norm_num
  · apply qMean_nonneg
    intro x hx
    rw [List.mem_map] at hx
    obtain ⟨g, _, rfl⟩ := hx
    positivity

theorem longPauseDurations_gt (s : List Row) :
    ∀ d ∈ longPauseDurations s, VIDEO_PAUSE_THRESHOLD_S < d := by
  intro d hd
  rw [longPauseDurations, List.mem_filterMap] at hd
  obtain ⟨r, _, hr⟩ := hd
  cases hdata : r.data <;> rw [hdata] at hr <;> simp at hr
  case videoPaused at_ dur =>
    obtain ⟨hgt, rfl⟩ := hr
    exact hgt

theorem calculate_video_pause_score_mem (s : List Row) :
    0 ≤ calculate_video_pause_score s ∧ calculate_video_pause_score s ≤ 1 := by
  rw [calculate_video_pause_score]
  split_ifs with h0
  · norm_num
  · apply qList_prod_bounds
    intro x hx
    rw [List.mem_map] at hx
    obtain ⟨d, hd, rfl⟩ := hx
    have hgt := longPauseDurations_gt s d hd
    rw [VIDEO_PAUSE_THRESHOLD_S] at hgt
    rw [VIDEO_PAUSE_MAX_S]
    constructor
    · have : min d 300 ≤ 300 := min_le_right d 300
      have h300 : (0:ℚ) < 300 := by norm_num
      rw [sub_nonneg, div_le_one h300]
      exact this
    · have : 0 ≤ min d 300 := le_min (by linarith) (by norm_num)
      have : 0 ≤ min d 300 / 300 := by positivity
      linarith

theorem score_speed_mem (x : ℚ) : 0 ≤ score_speed x ∧ score_speed x ≤ 1 := by
  rw [score_speed]
  split_ifs with h1 h2
  · norm_num
  · push_neg at h1
    constructor <;> linarith
  · norm_num

theorem calculate_video_speed_score_mem (s : List Row) :
    0 ≤ calculate_video_speed_score s ∧ calculate_video_speed_score s ≤ 1 := by
  rw [calculate_video_speed_score]
  split_ifs with h0
  · norm_num
  · apply qMean_bounds _ 0 1 (by simpa using h0)
    intro x hx
    rw [List.mem_map] at hx
    obtain ⟨d, _, rfl⟩ := hx
    exact score_speed_mem d

theorem calculate_physical_activity_score_mem (s : List Row) :
    0 ≤ calculate_physical_activity_score s ∧ calculate_physical_activity_score s ≤ 1 := by
  rw [calculate_physical_activity_score]
  split_ifs with h0
  · norm_num
  · have hlen : 0 < ((activitySpeeds s).length : ℚ) := by
      have : 0 < (activitySpeeds s).length := List.length_pos.mpr h0
      exact_mod_cast this
    constructor
    · positivity
    · rw [div_le_one hlen]
      exact_mod_cast List.length_filter_le _ _

theorem calculate_weak_signal_score_mem (s : List Row) :
    0 ≤ calculate_weak_signal_score s ∧ calculate_weak_signal_score s ≤ 1 := by
  rw [calculate_weak_signal_score]
  split_ifs with h0
  · norm_num
  · apply qMean_bounds _ 0 1 (by simpa using h0)
    intro x hx
    rw [List.mem_map] at hx
    obtain ⟨d, _, rfl⟩ := hx
    exact npClip01_mem _

theorem calculate_watch_off_score_mem (s : List Row) :
    0 ≤ calculate_watch_off_score s ∧ calculate_watch_off_score s ≤ 1 := by
  rw [calculate_watch_off_score]
  constructor
  · exact le_max_left 0 _
  · apply max_le (by norm_num)
    have : (0:ℚ) ≤ 1/2 * (((s.filter (fun r => r.hasType "WEARABLE_OFF")).length : ℚ)) := by positivity
    linarith

theorem foldl_min_le_init (xs : List ℚ) (a : ℚ) : xs.foldl min a ≤ a := by
  induction xs generalizing a with
  | nil => simp
  | cons b bs ih =>
    simp only [List.foldl_cons]
    exact le_trans (ih (min a b)) (min_le_left a b)

theorem init_le_foldl_max (xs : List ℚ) (a : ℚ) : a ≤ xs.foldl max a := by
  induction xs generalizing a with
  | nil => simp
  | cons b bs ih =>
    simp only [List.foldl_cons]
    exact le_trans (le_max_left a b) (ih (max a b))

theorem sessionStartMs_le_sessionEndMs (s : List Row) :
    sessionStartMs s ≤ sessionEndMs s := by
  rw [sessionStartMs, sessionEndMs]
  cases hm : s.map Row.addedAt with
  | nil => simp [qMinD, qMaxD]
  | cons x xs =>
    rw [qMinD, qMaxD]
    exact le_trans (foldl_min_le_init xs x) (init_le_foldl_max xs x)

theorem get_quality_mem (dir : String) (dist : ℚ) (hd : 0 ≤ dist) :
    0 ≤ get_quality dir dist ∧ get_quality dir dist ≤ 1 := by
  rw [get_quality]
  have h100 : (0:ℚ) < HRTC_UP_PX := by rw [HRTC_UP_PX]; norm_num
  have h500 : (0:ℚ) < HRTC_DOWN_PX := by rw [HRTC_DOWN_PX]; norm_num
  split_ifs with h
  · have hm1 : 0 ≤ min 1 (dist / HRTC_UP_PX) := le_min (by norm_num) (by positivity)
    have hm2 : min 1 (dist / HRTC_UP_PX) ≤ 1 := min_le_left 1 _
    constructor <;> nlinarith
  · have hm1 : 0 ≤ min 1 (dist / HRTC_DOWN_PX) := le_min (by norm_num) (by positivity)
    have hm2 : min 1 (dist / HRTC_DOWN_PX) ≤ 1 := min_le_left 1 _
    constructor <;> nlinarith

theorem blend_mem (c q : ℝ) (hc : 0 ≤ c ∧ c ≤ 1) (hq : 0 ≤ q ∧ q ≤ 1) :
    0 ≤ (15/100 : ℝ) * c + (85/100 : ℝ) * q ∧
      (15/100 : ℝ) * c + (85/100 : ℝ) * q ≤ 1 := by
  constructor <;> nlinarith [hc.1, hc.2, hq.1, hq.2]

theorem mem_scrollEvents (l : List Row) (p : String × ℚ) (hp : p ∈ scrollEvents l) :
    ∃ r ∈ l, ∃ pos t, r.data = .textScroll p.1 p.2 pos t := by
  rw [scrollEvents, List.mem_filterMap] at hp
  obtain ⟨r, hr, hmatch⟩ := hp
  refine ⟨r, hr, ?_⟩
  cases hdata : r.data <;> rw [hdata] at hmatch <;> simp at hmatch
  case textScroll dir dist pos t =>
    obtain ⟨rfl, rfl⟩ := hmatch
    exact ⟨pos, t, rfl⟩

theorem consistency_expr_nonneg (distances : List ℚ) :
    0 ≤ (if distances.length < 2 then (1:ℝ)
         else Real.exp (-(if qMean distances = 0 then (1:ℝ)
                          else sampleStd distances / ((qMean distances : ℚ) : ℝ)))) := by
  split_ifs
  · norm_num
  · exact le_of_lt (Real.exp_pos _)
  · exact le_of_lt (Real.exp_pos _)

theorem consistency_expr_le_one (distances : List ℚ) (hpos : ∀ x ∈ distances, 0 ≤ x) :
    (if distances.length < 2 then (1:ℝ)
     else Real.exp (-(if qMean distances = 0 then (1:ℝ)
                      else sampleStd distances / ((qMean distances : ℚ) : ℝ)))) ≤ 1 := by
  split_ifs with h1 h2
  · norm_num
  · rw [Real.exp_le_one_iff]
    norm_num
  · rw [Real.exp_le_one_iff]
    have hm : 0 < qMean distances := qMean_pos_of_ne_zero distances hpos h2
    have hmr : (0:ℝ) < ((qMean distances : ℚ) : ℝ) := by exact_mod_cast hm
    have hstd : 0 ≤ sampleStd distances := Real.sqrt_nonneg _
    have : 0 ≤ sampleStd distances / ((qMean distances : ℚ) : ℝ) := by positivity
    linarith

theorem calculate_text_scroll_score_mem (s : List Row)
    (hpos : ∀ p ∈ scrollEvents s, 0 ≤ p.2) :
    0 ≤ calculate_text_scroll_score s ∧ calculate_text_scroll_score s ≤ 1 := by
  rw [calculate_text_scroll_score]
  split_ifs with h0
  · norm_num
  · have hdpos : ∀ x ∈ (scrollEvents s).map Prod.snd, 0 ≤ x := by
      intro x hx
      rw [List.mem_map] at hx
      obtain ⟨p, hp, rfl⟩ := hx
      exact hpos p hp
    have hC1 := consistency_expr_nonneg ((scrollEvents s).map Prod.snd)
    have hC2 := consistency_expr_le_one ((scrollEvents s).map Prod.snd) hdpos
    have hQ : 0 ≤ qMean ((scrollEvents s).map fun p => get_quality p.1 p.2) ∧
        qMean ((scrollEvents s).map fun p => get_quality p.1 p.2) ≤ 1 := by
      apply qMean_bounds _ 0 1 (by simpa using h0)
      intro x hx
      rw [List.mem_map] at hx
      obtain ⟨p, hp, rfl⟩ := hx
      exact get_quality_mem p.1 p.2 (hpos p hp)
    have hQr : (0:ℝ) ≤ ((qMean ((scrollEvents s).map fun p => get_quality p.1 p.2) : ℚ) : ℝ) ∧
        ((qMean ((scrollEvents s).map fun p => get_quality p.1 p.2) : ℚ) : ℝ) ≤ 1 := by
      constructor
      · exact_mod_cast hQ.1
      · exact_mod_cast hQ.2
    exact blend_mem _ _ ⟨hC1, hC2⟩ hQr

theorem mem_focusLostTimes (s : List Row) (t : ℚ) (ht : t ∈ focusLostTimes s) :
    ∃ r ∈ s, r.data = .tabFocusLost t := by
  rw [focusLostTimes, mem_isortBy, List.mem_filterMap] at ht
  obtain ⟨r, hr, hmatch⟩ := ht
  refine ⟨r, hr, ?_⟩
  cases hdata : r.data <;> rw [hdata] at hmatch <;> simp at hmatch
  case tabFocusLost t0 =>
    rw [hmatch]

theorem distractionSeconds_nonneg (gains : List ℚ) (session_end lost : ℚ)
    (hend : lost ≤ session_end) :
    0 ≤ distractionSeconds gains session_end lost := by
  rw [distractionSeconds]
  cases hfind : gains.find? (fun g => g > lost) with
  | none =>
    have : 0 ≤ session_end - lost := by linarith
    positivity
  | some g =>
    have hg : lost < g := by
      have := List.find?_some hfind
      simpa using this
    have : 0 ≤ g - lost := by linarith
    positivity

theorem calculate_tab_focus_score_mem (s : List Row)
    (hf : ∀ r ∈ s, ∀ t, r.data = .tabFocusLost t → t ≤ sessionEndMs s) :
    0 ≤ calculate_tab_focus_score s ∧ calculate_tab_focus_score s ≤ 1 := by
  rw [calculate_tab_focus_score]
  split_ifs with h0
  · norm_num
  · have hT0 : 0 ≤ (sessionEndMs s - sessionStartMs s) / 1000 :=
      div_nonneg (by linarith [sessionStartMs_le_sessionEndMs s]) (by norm_num)
    have hTpos : 0 < (sessionEndMs s - sessionStartMs s) / 1000 :=
      lt_of_le_of_ne hT0 (Ne.symm h0)
    have hD : 0 ≤ ((focusLostTimes s).map
        (distractionSeconds (focusGainTimes s) (sessionEndMs s))).sum := by
      apply List.sum_nonneg
      intro x hx
      rw [List.mem_map] at hx
      obtain ⟨lost, hlost, rfl⟩ := hx
      obtain ⟨r, hr, hrl⟩ := mem_focusLostTimes s lost hlost
      exact distractionSeconds_nonneg _ _ _ (hf r hr lost hrl)
    constructor
    · exact div_nonneg (le_max_left 0 _) hT0
    · rw [div_le_one hTpos]
      exact max_le (le_of_lt hTpos) (by linarith)

theorem finalSessionScore_mem (subs : ConcSubScores)
    (h1 : 0 ≤ subs.text_scroll ∧ subs.text_scroll ≤ 1)
    (h2 : 0 ≤ subs.video_jump ∧ subs.video_jump ≤ 1)
    (h3 : 0 ≤ subs.video_pause ∧ subs.video_pause ≤ 1)
    (h4 : 0 ≤ subs.video_speed ∧ subs.video_speed ≤ 1)
    (h5 : 0 ≤ subs.tab_focus ∧ subs.tab_focus ≤ 1)
    (h6 : 0 ≤ subs.physical_activity ∧ subs.physical_activity ≤ 1)
    (h7 : 0 ≤ subs.weak_signal ∧ subs.weak_signal ≤ 1)
    (h8 : 0 ≤ subs.watch_off ∧ subs.watch_off ≤ 1) :
    0 ≤ finalSessionScore subs ∧ finalSessionScore subs ≤ 1 := by
  simp only [finalSessionScore, METRIC_WEIGHTS, List.map_cons, List.map_nil,
    List.sum_cons, List.sum_nil, ConcSubScores.metricValue]
  push_cast
  constructor <;>
    nlinarith [h1.1, h1.2, h2.1, h2.2, h3.1, h3.2, h4.1, h4.2, h5.1, h5.2,
      h6.1, h6.2, h7.1, h7.2, h8.1, h8.2]

theorem concSubScoresOf_final_mem (k : Value) (g uhdf : List Row)
    (hpos : ∀ p ∈ scrollEvents g, 0 ≤ p.2)
    (hf : ∀ r ∈ g, ∀ t, r.data = .tabFocusLost t → t ≤ sessionEndMs g) :
    0 ≤ finalSessionScore (concSubScoresOf k g uhdf) ∧
      finalSessionScore (concSubScoresOf k g uhdf) ≤ 1 := by
  apply finalSessionScore_mem
  · simp only [concSubScoresOf]
    exact calculate_text_scroll_score_mem g hpos
  · simp only [concSubScoresOf]
    have h := calculate_video_jump_score_mem g uhdf
    exact ⟨by exact_mod_cast h.1, by exact_mod_cast h.2⟩
  · simp only [concSubScoresOf]
    have h := calculate_video_pause_score_mem g
    exact ⟨by exact_mod_cast h.1, by exact_mod_cast h.2⟩
  · simp only [concSubScoresOf]
    have h := calculate_video_speed_score_mem g
    exact ⟨by exact_mod_cast h.1, by exact_mod_cast h.2⟩
  · simp only [concSubScoresOf]
    have h := calculate_tab_focus_score_mem g hf
    exact ⟨by exact_mod_cast h.1, by exact_mod_cast h.2⟩
  · simp only [concSubScoresOf]
    have h := calculate_physical_activity_score_mem g
    exact ⟨by exact_mod_cast h.1, by exact_mod_cast h.2⟩
  · simp only [concSubScoresOf]
    have h := calculate_weak_signal_score_mem g
    exact ⟨by exact_mod_cast h.1, by exact_mod_cast h.2⟩
  · simp only [concSubScoresOf]
    have h := calculate_watch_off_score_mem g
    exact ⟨by exact_mod_cast h.1, by exact_mod_cast h.2⟩

theorem get_concentration_score_no_filter_mem (updf uhdf : List Row)
    (hscroll : ∀ r ∈ updf, ∀ dir dist pos t,
      r.data = .textScroll dir dist pos t → 0 ≤ dist)
    (hfocus : ∀ g ∈ groupbySessionId updf, ∀ r ∈ g.2, ∀ t,
      r.data = .tabFocusLost t → t ≤ sessionEndMs g.2)
    (res : ConcResult)
    (hres : get_concentration_score_no_filter updf uhdf = some res) :
    0 ≤ res.concentration_score ∧ res.concentration_score ≤ 1 := by
  rw [get_concentration_score_no_filter] at hres
  by_cases h0 : updf = []
  · rw [if_pos h0] at hres
    cases hres
  · rw [if_neg h0] at hres
    simp only [] at hres
    split_ifs at hres with h1
    have helem : ∀ x ∈ List.map finalSessionScore
        (List.map (fun g => concSubScoresOf g.1 g.2 uhdf) (groupbySessionId updf)),
        0 ≤ x ∧ x ≤ 1 := by
      intro x hx
      rw [List.mem_map] at hx
      obtain ⟨subs, hsubs, rfl⟩ := hx
      rw [List.mem_map] at hsubs
      obtain ⟨g, hg, rfl⟩ := hsubs
      apply concSubScoresOf_final_mem
      · intro p hp
        obtain ⟨r, hr, pos, t, hrd⟩ := mem_scrollEvents g.2 p hp
        have hrupdf : r ∈ updf := by
          have hg2 : g.2 = updf.filter (fun row => row.sessionId == g.1) := by
            rw [groupbySessionId, List.mem_map] at hg
            obtain ⟨kk, hkk, hpair⟩ := hg
            rw [← hpair]
          rw [hg2] at hr
          exact (List.mem_filter.mp hr).1
        exact hscroll r hrupdf p.1 p.2 pos t hrd
      · exact hfocus g hg
    have hb := rMean_bounds (List.map finalSessionScore
        (List.map (fun g => concSubScoresOf g.1 g.2 uhdf) (groupbySessionId updf)))
        0 1 h1 helem
    have hrec := Option.some.inj hres
    subst hrec
    exact hb

theorem neg_scroll_text_score : calculate_text_scroll_score [negScrollRow] = -337/20 := by
  have hscroll : scrollEvents [negScrollRow] = [("down", -10000)] := rfl
  have hq : get_quality "down" (-10000) = -20 := by
    have hbe : (("down" : String) == "up") = false := rfl
    simp only [get_quality, hbe, Bool.false_eq_true, if_false]
    norm_num [HRTC_DOWN_PX]
  simp only [calculate_text_scroll_score, hscroll, List.map_cons, List.map_nil, hq]
  norm_num [qMean]

theorem neg_scroll_report :
    (get_concentration_score_no_filter [negScrollRow] [negScrollRow]).map
      ConcResult.concentration_score = some (-731/400 : ℝ) := by
  have hg : groupbySessionId [negScrollRow] = [(.vInt 1, [negScrollRow])] := rfl
  have hsubs : concSubScoresOf (.vInt 1) [negScrollRow] [negScrollRow] =
      { session_id := .vInt 1, text_scroll := -337/20, video_jump := 0,
        video_pause := 1, video_speed := 1, tab_focus := 1,
        physical_activity := 1, weak_signal := 1, watch_off := 1 } := by
    have hj : calculate_video_jump_score [negScrollRow] [negScrollRow] = 0 := by
      have hje : jumpEvents [negScrollRow] = [] := rfl
      simp only [calculate_video_jump_score, hje]
      norm_num [groupbySessionId, sessionKeys, dedupKeys, isortBy, qMean]
    have htab : calculate_tab_focus_score [negScrollRow] = 1 := by
      norm_num [calculate_tab_focus_score, sessionStartMs, sessionEndMs, qMinD,
        qMaxD, negScrollRow]
    have hw : calculate_watch_off_score [negScrollRow] = 1 := by
      have hfw : ([negScrollRow].filter (fun r => r.hasType "WEARABLE_OFF")) = [] := rfl
      simp only [calculate_watch_off_score, hfw]
      norm_num
    have hp : calculate_video_pause_score [negScrollRow] = 1 := rfl
    have hs : calculate_video_speed_score [negScrollRow] = 1 := rfl
    have hpa : calculate_physical_activity_score [negScrollRow] = 1 := rfl
    have hws : calculate_weak_signal_score [negScrollRow] = 1 := rfl
    rw [concSubScoresOf]
    rw [neg_scroll_text_score, hj, htab, hw, hp, hs, hpa, hws]
    norm_num
  rw [get_concentration_score_no_filter]
  simp only [hg, List.map_cons, List.map_nil, hsubs]
  rw [if_neg (by decide), if_neg (by simp)]
  have hfs : finalSessionScore
      { session_id := .vInt 1, text_scroll := -337/20, video_jump := 0,
        video_pause := 1, video_speed := 1, tab_focus := 1,
        physical_activity := 1, weak_signal := 1, watch_off := 1 } = -731/400 := by
    simp only [finalSessionScore, METRIC_WEIGHTS, List.map_cons, List.map_nil,
      ConcSubScores.metricValue, List.sum_cons, List.sum_nil]
    norm_num
  rw [hfs]
  norm_num

/-- C1, counterexample: for a session whose single TEXT_SCROLL event has a
negative distance (-10000), the scroll quality is `min(1, -10000/500) = -20`,
the scroll sub-score is `0.15 - 0.85*20 = -16.85`, and the aggregate
concentration score is `0.15*(-16.85) + 0.7 = -1.8275 < 0`, outside [0,1] -
so the aggregate is not in [0,1] for every event table. -/
theorem claim_C1_counterexample :
    (get_concentration_score_no_filter [negScrollRow] [negScrollRow]).map
      ConcResult.concentration_score = some (-731/400 : ℝ) ∧
    (-731/400 : ℝ) < 0 :=
  ⟨neg_scroll_report, by norm_num⟩

/-- C1, amended: both weight sets sum to exactly 1.0; the aggregate stress
score lies in [0,1] for every event table, user and date range; and the
aggregate concentration score lies in [0,1] for every period and history
frame whose scroll distances are nonnegative and whose focus-lost payload
timestamps do not exceed their session's end. -/
theorem claim_C1_weights_and_bounds :
    ((METRIC_WEIGHTS.map Prod.snd).sum = 1) ∧
    ((stressWeights.map Prod.snd).sum = 1) ∧
    (∀ (df : List Row) (uid : String) (s e : ℚ),
      0 ≤ (stress_report df uid s e).stress ∧ (stress_report df uid s e).stress ≤ 1) ∧
    (∀ (updf uhdf : List Row) (res : ConcResult),
      (∀ r ∈ updf, ∀ (dir : String) (dist pos t : ℚ),
        r.data = EventData.textScroll dir dist pos t → 0 ≤ dist) →
      (∀ g ∈ groupbySessionId updf, ∀ r ∈ g.2, ∀ t : ℚ,
        r.data = EventData.tabFocusLost t → t ≤ sessionEndMs g.2) →
      get_concentration_score_no_filter updf uhdf = some res →
      0 ≤ res.concentration_score ∧ res.concentration_score ≤ 1) := by
  refine ⟨by norm_num [METRIC_WEIGHTS], by norm_num [stressWeights],
    stress_report_mem, ?_⟩
  intro updf uhdf res hsc hfo hres
  exact get_concentration_score_no_filter_mem updf uhdf hsc hfo res hres

/-- C1, witness: the single-scroll session satisfies both side conditions
and its aggregate 0.78625 is inside [0,1]. -/
theorem claim_C1_weights_and_bounds_witness :
    (∀ r ∈ [scrollDemoRow], ∀ (dir : String) (dist pos t : ℚ),
      r.data = EventData.textScroll dir dist pos t → 0 ≤ dist) ∧
    (∀ g ∈ groupbySessionId [scrollDemoRow], ∀ r ∈ g.2, ∀ t : ℚ,
      r.data = EventData.tabFocusLost t → t ≤ sessionEndMs g.2) ∧
    (0 ≤ (629/800 : ℝ) ∧ (629/800 : ℝ) ≤ 1) := by
  have h1 : ∀ r ∈ [scrollDemoRow], ∀ (dir : String) (dist pos t : ℚ),
      r.data = EventData.textScroll dir dist pos t → 0 ≤ dist := by
    intro r hr dir dist pos t hd
    rw [List.mem_singleton] at hr
    subst hr
    simp only [scrollDemoRow] at hd
    injection hd with e1 e2 e3 e4
    subst e2
    norm_num
  have h2 : ∀ g ∈ groupbySessionId [scrollDemoRow], ∀ r ∈ g.2, ∀ t : ℚ,
      r.data = EventData.tabFocusLost t → t ≤ sessionEndMs g.2 := by
    have hg : groupbySessionId [scrollDemoRow] = [(.vInt 1, [scrollDemoRow])] := rfl
    rw [hg]
    intro g hgm r hr t hd
    rw [List.mem_singleton] at hgm
    subst hgm
    rw [List.mem_singleton] at hr
    subst hr
    simp [scrollDemoRow] at hd
  exact ⟨h1, h2,
    claim_C1_weights_and_bounds.2.2.2 [scrollDemoRow] [scrollDemoRow] _ h1 h2
      single_scroll_report⟩

end Zeppelin
